import Mathlib

/-!
Session negotiation controller of the GStreamer WebRTC sender.

Shallow embedding of `src/gtpversion/gpt.cpp` (the variant that rebuilds the
pipeline for every viewer) and of the handlers of `src/index.cpp` that differ
from it.  The module-level globals of the C++ program become the fields of
`State`; every handler is a function on `State`.  Calls into GStreamer
(the Media Engine) and into the websocket (the Signaling Channel) are appended,
in program order, to the ghost field `State.calls`.
-/

namespace GstWebrtc

/-! ## JSON values as json-glib presents them -/

/-- JSON node: the value kinds the handlers can meet in a parsed message.
Numbers are the integers (what `json_object_get_int_member` reads). -/
inductive JsonNode where
  | null
  | bool (b : Bool)
  | int (n : Int)
  | str (s : String)
  | obj (members : List (String × JsonNode))
  | arr (items : List JsonNode)

/-- JSON object: its members in insertion order. -/
abbrev JsonObject := List (String × JsonNode)

/-- The object held by a root node, NULL (none) when the root is missing or
is not an object. -/
def json_node_get_object (root : Option JsonNode) : Option JsonObject :=
  match root with
  | some (JsonNode.obj members) => some members
  | _ => none

/-- Member test; FALSE on a NULL object. -/
def json_object_has_member (object : Option JsonObject) (name : String) : Bool :=
  match object with
  | none => false
  | some members => (List.lookup name members).isSome

/-- String member; NULL (none) when the object is NULL, the member is missing
or the member does not hold a string. -/
def json_object_get_string_member (object : Option JsonObject) (name : String) :
    Option String :=
  match object with
  | none => none
  | some members =>
    match List.lookup name members with
    | some (JsonNode.str s) => some s
    | _ => none

/-- Object member; NULL (none) when the object is NULL, the member is missing
or the member is not an object. -/
def json_object_get_object_member (object : Option JsonObject) (name : String) :
    Option JsonObject :=
  match object with
  | none => none
  | some members =>
    match List.lookup name members with
    | some (JsonNode.obj inner) => some inner
    | _ => none

/-- Integer member as gint64; 0 when the object is NULL, the member is missing
or holds no number (a boolean reads as 0 or 1). -/
def json_object_get_int_member (object : Option JsonObject) (name : String) : Int :=
  match object with
  | none => 0
  | some members =>
    match List.lookup name members with
    | some (JsonNode.int n) => n
    | some (JsonNode.bool b) => if b then 1 else 0
    | _ => 0

/-- Set a member: replaces the value of an existing member of that name,
appends a new member otherwise. -/
def json_object_set_member (object : JsonObject) (name : String) (node : JsonNode) :
    JsonObject :=
  if (List.lookup name object).isSome then
    object.map (fun kv => if kv.1 == name then (name, node) else kv)
  else
    object ++ [(name, node)]

/-- Set a string member. -/
def json_object_set_string_member (object : JsonObject) (name value : String) :
    JsonObject :=
  json_object_set_member object name (JsonNode.str value)

/-- Set an integer member. -/
def json_object_set_int_member (object : JsonObject) (name : String) (value : Int) :
    JsonObject :=
  json_object_set_member object name (JsonNode.int value)

/-- Set an object member. -/
def json_object_set_object_member (object : JsonObject) (name : String)
    (value : JsonObject) : JsonObject :=
  json_object_set_member object name (JsonNode.obj value)

/-- Conversion of a gint64 to guint (32 bits, unsigned). -/
def to_guint (n : Int) : Nat :=
  (n % 4294967296).toNat

/-- Conversion of an integer to gint (32 bits, two's complement). -/
def to_gint (n : Int) : Int :=
  (n + 2147483648) % 4294967296 - 2147483648

/-! ## Globals -/

/-- The `struct Config` of both programs. -/
structure Config where
  codec : String
  bitrate : Int
  fps : Int
  width : Int
  height : Int
  device : String

/-- The C string `snprintf` leaves in a buffer of `size` bytes: the UTF-8
bytes of the formatted text, cut after `size - 1` bytes. -/
def snprintf_buffer (size : Nat) (text : String) : List UInt8 :=
  text.toUTF8.data.toList.take (size - 1)

/-- A call the controller makes into GStreamer, the websocket or the main
loop. A GStreamer object (a pipeline or its webrtcbin element) is named by its
identity, a number. `webrtc` arguments are the value of the global at the time
of the call, which may be NULL (none). -/
inductive Call where
  | parse_launch (description : List UInt8)
  | connect_signals (webrtc : Nat)
  | bus_add_watch (pipeline : Nat)
  | set_state_playing (pipeline : Nat)
  | set_state_null (pipeline : Nat)
  | unref (object : Nat)
  | create_offer (webrtc : Nat)
  | set_local_description (webrtc : Option Nat) (sdp : String)
  | set_remote_description (webrtc : Option Nat) (sdp : String)
  | add_ice_candidate (webrtc : Option Nat) (mlineindex : Nat) (candidate : String)
  | send_text (msg : JsonObject)
  | main_loop_quit
  | websocket_connect_async

/-- The module-level globals, with three ghost fields: `calls` (the calls made
so far), `pending` (the webrtcbin of every create-offer promise whose
`on_offer_created` has not run yet, oldest first) and `next_handle` (the
identity the next object GStreamer creates will get). -/
structure State where
  config : Config
  pipeline : Option Nat
  webrtc : Option Nat
  ws_conn : Bool
  peer_id : Option String
  my_id : Option String
  offer_in_progress : Bool
  calls : List Call
  pending : List Nat
  next_handle : Nat

/-- What `gst_parse_launch` and the lookup of `webrtcbin` deliver to
`build_and_start_pipeline`. -/
inductive LaunchResult where
  | error
  | no_webrtcbin
  | ok

/-- An inbound websocket frame: a non-text frame, a text frame that
`json_parser_load_from_data` rejects, or a text frame with its parsed root
(none for an empty document). -/
inductive Frame where
  | binary
  | malformed
  | json (root : Option JsonNode)

/-- The values of `GstWebRTCICEConnectionState`. -/
inductive IceConnectionState where
  | new
  | checking
  | connected
  | completed
  | failed
  | disconnected
  | closed

/-! ## Functions that are the same in both programs -/

/-- Both files, `send_json_message`. -/
def send_json_message (msg : JsonObject) (s : State) : State :=
  if !s.ws_conn then s
  else { s with calls := s.calls ++ [Call.send_text msg] }

/-- Both files, `reset_peer_state`. -/
def reset_peer_state (s : State) : State :=
  let s1 := if s.peer_id.isSome then { s with peer_id := none } else s
  { s1 with offer_in_progress := false }

/-- Both files, `force_renegotiate`. -/
def force_renegotiate (s : State) : State :=
  match s.webrtc with
  | none => s
  | some w =>
    if s.offer_in_progress then s
    else
      { s with
        offer_in_progress := true
        calls := s.calls ++ [Call.create_offer w]
        pending := s.pending ++ [w] }

/-- Both files, `on_offer_created`. `promise` is the position in `pending` of
the promise that fired, `reply` the sdp text of the offer in its reply (none
when the reply holds no offer). -/
def on_offer_created (promise : Nat) (reply : Option String) (s : State) : State :=
  let s1 := { s with pending := s.pending.eraseIdx promise }
  match reply with
  | none => { s1 with offer_in_progress := false }
  | some sdp_text =>
    let s2 := { s1 with calls := s1.calls ++ [Call.set_local_description s1.webrtc sdp_text] }
    let msg := json_object_set_string_member
      (json_object_set_string_member [] "type" "offer") "sdp" sdp_text
    send_json_message msg s2

/-- Both files, `on_negotiation_needed`. -/
def on_negotiation_needed (s : State) : State :=
  s

/-- Both files, the handler of `notify::ice-connection-state` (a lambda in
gpt.cpp, `on_ice_connection_state_notify` in index.cpp). -/
def on_ice_connection_state_notify (st : IceConnectionState) (s : State) : State :=
  match st with
  | IceConnectionState.failed => reset_peer_state s
  | IceConnectionState.disconnected => reset_peer_state s
  | IceConnectionState.closed => reset_peer_state s
  | _ => s

/-- The kinds of bus message `on_bus_message` tells apart. -/
inductive BusMessage where
  | error
  | warning
  | eos
  | other

/-- Both files, `on_bus_message` (it always returns TRUE). -/
def on_bus_message (message : BusMessage) (s : State) : State :=
  match message with
  | BusMessage.error => { s with calls := s.calls ++ [Call.main_loop_quit] }
  | BusMessage.warning => s
  | BusMessage.eos => { s with calls := s.calls ++ [Call.main_loop_quit] }
  | BusMessage.other => s

/-- Both files, `on_incoming_stream`. -/
def on_incoming_stream (s : State) : State :=
  s

/-- Both files, the handler of the websocket signal `closed`. -/
def on_websocket_closed (s : State) : State :=
  { s with calls := s.calls ++ [Call.main_loop_quit] }

/-- Both files, the answer branch of `on_message`; none is the crash of
`strlen` on a NULL sdp. -/
def on_message_answer (object : Option JsonObject) (s : State) : Option State :=
  let sdp_text := json_object_get_string_member object "sdp"
  let from_id := json_object_get_string_member object "from"
  let s1 := if s.peer_id.isNone || s.peer_id != from_id then { s with peer_id := from_id } else s
  match sdp_text with
  | none => none
  | some sdp =>
    some { s1 with
      calls := s1.calls ++ [Call.set_remote_description s1.webrtc sdp]
      offer_in_progress := false }

/-- Both files, the ice-candidate branch of `on_message`. -/
def on_message_ice_candidate (object : Option JsonObject) (s : State) : State :=
  if !json_object_has_member object "candidate" then s
  else
    let cand := json_object_get_object_member object "candidate"
    match json_object_get_string_member cand "candidate" with
    | none => s
    | some candidate_str =>
      if candidate_str = "" then s
      else
        let sdp_mline_index := to_guint (json_object_get_int_member cand "sdpMLineIndex")
        { s with calls := s.calls ++
            [Call.add_ice_candidate s.webrtc sdp_mline_index candidate_str] }

/-! ## src/gtpversion/gpt.cpp -/

namespace Gpt

/-- Function `build_pipeline_string` of gpt.cpp: the launch description
`snprintf` writes into its 4096-byte buffer (at most 4095 bytes are kept).
The product `config.bitrate * 1000` is a 32-bit signed product. -/
def build_pipeline_string (config : Config) : List UInt8 :=
  let h265 := config.codec = "h265"
  let encoder := if h265 then "omxh265enc" else "omxh264enc"
  let parser := if h265 then "h265parse" else "h264parse"
  let payloader := if h265 then "rtph265pay" else "rtph264pay"
  let encoding_name := if h265 then "H265" else "H264"
  let payload : Int := 96
  let text :=
    "webrtcbin name=webrtcbin bundle-policy=max-bundle latency=100 " ++
    "stun-server=stun://stun.l.google.com:19302 " ++
    "v4l2src device=" ++ config.device ++ " ! " ++
    "video/x-raw,width=" ++ toString config.width ++ ",height=" ++ toString config.height ++
      ",framerate=" ++ toString config.fps ++ "/1 ! " ++
    "videoconvert ! " ++
    "queue max-size-buffers=3 leaky=downstream ! " ++
    encoder ++ " target-bitrate=" ++ toString (to_gint (config.bitrate * 1000)) ++
      " control-rate=2 ! " ++
    parser ++ " ! " ++
    payloader ++ " config-interval=1 pt=" ++ toString payload ++ " ! " ++
    "application/x-rtp,media=video,encoding-name=" ++ encoding_name ++
      ",payload=" ++ toString payload ++ " ! " ++
    "webrtcbin. " ++
    "audiotestsrc is-live=true wave=silence ! " ++
    "audioconvert ! audioresample ! queue ! " ++
    "opusenc ! rtpopuspay pt=97 ! " ++
    "application/x-rtp,media=audio,encoding-name=OPUS,payload=97 ! " ++
    "webrtcbin."
  snprintf_buffer 4096 text

/-- Function `build_and_start_pipeline` of gpt.cpp. `launch` is what GStreamer
delivers; a created pipeline gets identity `next_handle`, its webrtcbin the
identity after it. -/
def build_and_start_pipeline (launch : LaunchResult) (s : State) : Bool × State :=
  let s1 := { s with calls := s.calls ++ [Call.parse_launch (build_pipeline_string s.config)] }
  match launch with
  | LaunchResult.error => (false, { s1 with pipeline := none })
  | LaunchResult.no_webrtcbin =>
    let p := s1.next_handle
    (false, { s1 with
      webrtc := none
      pipeline := none
      calls := s1.calls ++ [Call.unref p]
      next_handle := p + 1 })
  | LaunchResult.ok =>
    let p := s1.next_handle
    let w := p + 1
    (true, { s1 with
      pipeline := some p
      webrtc := some w
      calls := s1.calls ++
        [Call.connect_signals w, Call.bus_add_watch p, Call.set_state_playing p]
      next_handle := p + 2 })

/-- Function `stop_and_destroy_pipeline` of gpt.cpp. -/
def stop_and_destroy_pipeline (s : State) : State :=
  match s.pipeline with
  | none => s
  | some p =>
    let s1 := { s with calls := s.calls ++ [Call.set_state_null p] }
    let s2 :=
      match s1.webrtc with
      | some w => { s1 with calls := s1.calls ++ [Call.unref w], webrtc := none }
      | none => s1
    { s2 with calls := s2.calls ++ [Call.unref p], pipeline := none }

/-- Function `restart_pipeline` of gpt.cpp. -/
def restart_pipeline (launch : LaunchResult) (s : State) : Bool × State :=
  build_and_start_pipeline launch (stop_and_destroy_pipeline s)

/-- Function `on_message` of gpt.cpp. `launch` is what GStreamer delivers
should the handler rebuild the pipeline; none is a crash of the handler. -/
def on_message (launch : LaunchResult) (frame : Frame) (s : State) : Option State :=
  match frame with
  | Frame.binary => some s
  | Frame.malformed => some s
  | Frame.json root =>
    let object := json_node_get_object root
    let msg_type := json_object_get_string_member object "type"
    if msg_type = some "registered" then
      some { s with my_id := json_object_get_string_member object "id" }
    else if msg_type = some "answer" then
      on_message_answer object s
    else if msg_type = some "ice-candidate" then
      some (on_message_ice_candidate object s)
    else if msg_type = some "request-offer" then
      let r := restart_pipeline launch s
      if !r.1 then some r.2
      else some (force_renegotiate (reset_peer_state r.2))
    else if msg_type = some "peer-left" then
      let left_id :=
        if json_object_has_member object "id" then json_object_get_string_member object "id"
        else none
      match left_id, s.peer_id with
      | some l, some p =>
        if l = p then some (restart_pipeline launch (reset_peer_state s)).2
        else some s
      | _, _ => some s
    else some s

/-- Function `send_ice_candidate_message` of gpt.cpp. -/
def send_ice_candidate_message (mlineindex : Nat) (candidate : String) (s : State) : State :=
  let ice := json_object_set_int_member
    (json_object_set_string_member [] "candidate" candidate) "sdpMLineIndex" mlineindex
  let msg := json_object_set_object_member
    (json_object_set_string_member [] "type" "ice-candidate") "candidate" ice
  let msg1 :=
    match s.peer_id with
    | some p => json_object_set_string_member msg "to" p
    | none => msg
  send_json_message msg1 s

/-- Function `on_ice_candidate` of gpt.cpp. -/
def on_ice_candidate (mlineindex : Nat) (candidate : String) (s : State) : State :=
  send_ice_candidate_message mlineindex candidate s

/-- Function `on_websocket_connected` of gpt.cpp; `connected` is false when
the connection attempt reported an error. -/
def on_websocket_connected (connected : Bool) (s : State) : State :=
  if !connected then { s with ws_conn := false, calls := s.calls ++ [Call.main_loop_quit] }
  else
    let s1 := { s with ws_conn := true }
    let join := json_object_set_string_member
      (json_object_set_string_member
        (json_object_set_string_member [] "type" "join") "room" "default")
      "clientType" "sender"
    send_json_message join s1

/-- The globals as their initialisers leave them, with the given
configuration. -/
def initial (config : Config) : State :=
  { config := config
    pipeline := none
    webrtc := none
    ws_conn := false
    peer_id := none
    my_id := none
    offer_in_progress := false
    calls := []
    pending := []
    next_handle := 0 }

/-- The state `main` of gpt.cpp reaches once the first pipeline is built and
the websocket is connected. -/
def booted (config : Config) : State :=
  let s := (build_and_start_pipeline LaunchResult.ok (initial config)).2
  on_websocket_connected true { s with calls := s.calls ++ [Call.websocket_connect_async] }

end Gpt

/-! ## src/index.cpp -/

namespace Index

/-- Function `on_message` of index.cpp; none is a crash of the handler. -/
def on_message (frame : Frame) (s : State) : Option State :=
  match frame with
  | Frame.binary => some s
  | Frame.malformed => some s
  | Frame.json root =>
    let object := json_node_get_object root
    let msg_type := json_object_get_string_member object "type"
    if msg_type = some "registered" then
      some { s with my_id := json_object_get_string_member object "id" }
    else if msg_type = some "answer" then
      on_message_answer object s
    else if msg_type = some "ice-candidate" then
      some (on_message_ice_candidate object s)
    else if msg_type = some "request-offer" then
      some (force_renegotiate (reset_peer_state s))
    else if msg_type = some "peer-left" then
      let left_id :=
        if json_object_has_member object "id" then json_object_get_string_member object "id"
        else none
      match left_id, s.peer_id with
      | some l, some p =>
        if l = p then some (reset_peer_state s)
        else some s
      | _, _ => some s
    else some s

/-- Function `send_ice_candidate_message` of index.cpp. -/
def send_ice_candidate_message (mlineindex : Nat) (candidate : String) (s : State) : State :=
  let mid := if mlineindex = 0 then "video0" else if mlineindex = 1 then "audio1" else "video0"
  let ice := json_object_set_string_member
    (json_object_set_int_member
      (json_object_set_string_member [] "candidate" candidate) "sdpMLineIndex" mlineindex)
    "sdpMid" mid
  let msg := json_object_set_object_member
    (json_object_set_string_member [] "type" "ice-candidate") "candidate" ice
  let msg1 :=
    match s.peer_id with
    | some p => json_object_set_string_member msg "to" p
    | none => msg
  send_json_message msg1 s

/-- Function `on_ice_candidate` of index.cpp. -/
def on_ice_candidate (mlineindex : Nat) (candidate : String) (s : State) : State :=
  send_ice_candidate_message mlineindex candidate s

/-- Function `build_pipeline_string` of index.cpp: the launch description
`snprintf` writes into its 2048-byte buffer. The product
`config.bitrate * 1000` is a 32-bit signed product. -/
def build_pipeline_string (config : Config) : List UInt8 :=
  let h265 := config.codec = "h265"
  let encoder := if h265 then "omxh265enc" else "omxh264enc"
  let parser := if h265 then "h265parse" else "h264parse"
  let payloader := if h265 then "rtph265pay" else "rtph264pay"
  let encoding_name := if h265 then "H265" else "H264"
  let payload : Int := 96
  let text :=
    "webrtcbin name=webrtcbin bundle-policy=max-bundle latency=100 " ++
    "stun-server=stun://stun.l.google.com:19302 " ++
    "v4l2src device=" ++ config.device ++ " ! " ++
    "video/x-raw,width=" ++ toString config.width ++ ",height=" ++ toString config.height ++
      ",framerate=" ++ toString config.fps ++ "/1 ! " ++
    "videoconvert ! " ++
    "queue max-size-buffers=3 leaky=downstream ! " ++
    encoder ++ " target-bitrate=" ++ toString (to_gint (config.bitrate * 1000)) ++
      " control-rate=2 ! " ++
    "video/x-" ++ config.codec ++ ",profile=" ++ (if h265 then "main" else "baseline") ++ " ! " ++
    parser ++ " config-interval=1 ! " ++
    payloader ++ " config-interval=1 ! " ++
    "application/x-rtp,media=video,encoding-name=" ++ encoding_name ++
      ",payload=" ++ toString payload ++ " ! " ++
    "webrtcbin. " ++
    "audiotestsrc is-live=true wave=silence ! " ++
    "audioconvert ! " ++
    "audioresample ! " ++
    "queue ! " ++
    "opusenc ! " ++
    "rtpopuspay ! " ++
    "application/x-rtp,media=audio,encoding-name=OPUS,payload=97 ! " ++
    "webrtcbin."
  snprintf_buffer 2048 text

/-- Function `on_websocket_connected` of index.cpp; `connected` is false when
the connection attempt reported an error. -/
def on_websocket_connected (connected : Bool) (s : State) : State :=
  if !connected then { s with ws_conn := false, calls := s.calls ++ [Call.main_loop_quit] }
  else { s with ws_conn := true }

/-- The state `main` of index.cpp reaches, from the globals as their
initialisers leave them and the given configuration, once the pipeline is
created and set PLAYING and the websocket is connected. -/
def booted (config : Config) : State :=
  on_websocket_connected true
    { config := config
      pipeline := some 0
      webrtc := some 1
      ws_conn := false
      peer_id := none
      my_id := none
      offer_in_progress := false
      calls :=
        [Call.parse_launch (build_pipeline_string config), Call.connect_signals 1,
         Call.bus_add_watch 0, Call.websocket_connect_async, Call.set_state_playing 0]
      pending := []
      next_handle := 2 }

end Index

/-! ## Runs of the controller -/

/-- The request-offer message the relay delivers, with or without `from`. -/
def request_offer_message (from_id : Option String) : JsonNode :=
  match from_id with
  | none => JsonNode.obj [("type", JsonNode.str "request-offer")]
  | some v => JsonNode.obj [("type", JsonNode.str "request-offer"), ("from", JsonNode.str v)]

/-- The answer message a viewer sends through the relay. -/
def answer_message (sdp from_id : String) : JsonNode :=
  JsonNode.obj
    [("type", JsonNode.str "answer"), ("sdp", JsonNode.str sdp), ("from", JsonNode.str from_id)]

/-- The registered message of the relay, with or without `id`. -/
def registered_message (id : Option String) : JsonNode :=
  match id with
  | none => JsonNode.obj [("type", JsonNode.str "registered")]
  | some v => JsonNode.obj [("type", JsonNode.str "registered"), ("id", JsonNode.str v)]

/-- Events of a run: an inbound request-offer whose rebuild succeeds, or the
completion of the create-offer promise at a position of `pending`. -/
inductive OfferEvent where
  | request_offer (from_id : Option String)
  | offer_completion (promise : Nat) (reply : Option String)

/-- One event handled by gpt.cpp. A completion for a promise that does not
exist cannot happen and is skipped. -/
def Gpt.offer_step (e : OfferEvent) (s : State) : Option State :=
  match e with
  | OfferEvent.request_offer from_id =>
    Gpt.on_message LaunchResult.ok (Frame.json (some (request_offer_message from_id))) s
  | OfferEvent.offer_completion promise reply =>
    if promise < s.pending.length then some (on_offer_created promise reply s) else some s

/-- The events handled in order by gpt.cpp. -/
def Gpt.offer_run (events : List OfferEvent) (s : State) : Option State :=
  match events with
  | [] => some s
  | e :: rest =>
    match Gpt.offer_step e s with
    | none => none
    | some s1 => Gpt.offer_run rest s1

/-- One event handled by index.cpp. -/
def Index.offer_step (e : OfferEvent) (s : State) : Option State :=
  match e with
  | OfferEvent.request_offer from_id =>
    Index.on_message (Frame.json (some (request_offer_message from_id))) s
  | OfferEvent.offer_completion promise reply =>
    if promise < s.pending.length then some (on_offer_created promise reply s) else some s

/-- The events handled in order by index.cpp. -/
def Index.offer_run (events : List OfferEvent) (s : State) : Option State :=
  match events with
  | [] => some s
  | e :: rest =>
    match Index.offer_step e s with
    | none => none
    | some s1 => Index.offer_run rest s1

/-- Number of create-offer promises that have not completed. -/
def outstanding (s : State) : Nat :=
  s.pending.length

/-- Number of create-offer promises that have not completed and were issued
on the webrtcbin that is live now. -/
def outstanding_on_live (s : State) : Nat :=
  match s.webrtc with
  | none => 0
  | some w => s.pending.count w

/-- Every object identity in use (the live webrtcbin, the webrtcbin of every
pending promise) was handed out before `next_handle`. -/
def handles_fresh (s : State) : Bool :=
  s.webrtc.all (fun w => decide (w < s.next_handle)) &&
    s.pending.all (fun h => decide (h < s.next_handle))

/-- The default configuration `parse_arguments` starts from. -/
def default_config : Config :=
  { codec := "h264", bitrate := 2000, fps := 30, width := 1280, height := 720,
    device := "/dev/video0" }

/-! ## All events of the controller -/

/-- An event the main loop delivers to the controller of gpt.cpp: an inbound
websocket frame (with what GStreamer delivers should the handler rebuild the
pipeline), a signal of webrtcbin, the completion of a create-offer promise, a
bus message or the close of the websocket. -/
inductive Event where
  | message (launch : LaunchResult) (frame : Frame)
  | negotiation_needed
  | ice_candidate (mlineindex : Nat) (candidate : String)
  | incoming_stream
  | ice_connection_state (st : IceConnectionState)
  | offer_created (promise : Nat) (reply : Option String)
  | bus_message (message : BusMessage)
  | websocket_closed

/-- The `type` member of an inbound JSON message; none for every other event
and for a frame without a string `type`. -/
def Event.message_type (e : Event) : Option String :=
  match e with
  | Event.message _ (Frame.json root) =>
    json_object_get_string_member (json_node_get_object root) "type"
  | _ => none

/-- One event handled by gpt.cpp; none is a crash of the handler. A completion
for a promise that does not exist cannot happen and is skipped. -/
def Gpt.step (e : Event) (s : State) : Option State :=
  match e with
  | Event.message launch frame => Gpt.on_message launch frame s
  | Event.negotiation_needed => some (on_negotiation_needed s)
  | Event.ice_candidate mlineindex candidate =>
    some (Gpt.on_ice_candidate mlineindex candidate s)
  | Event.incoming_stream => some (on_incoming_stream s)
  | Event.ice_connection_state st => some (on_ice_connection_state_notify st s)
  | Event.offer_created promise reply =>
    if promise < s.pending.length then some (on_offer_created promise reply s) else some s
  | Event.bus_message message => some (on_bus_message message s)
  | Event.websocket_closed => some (on_websocket_closed s)

/-- The events handled in order by gpt.cpp. -/
def Gpt.run (events : List Event) (s : State) : Option State :=
  match events with
  | [] => some s
  | e :: rest =>
    match Gpt.step e s with
    | none => none
    | some s1 => Gpt.run rest s1

/-! ## Live pipelines, read off the call log -/

/-- The pipelines that are running after one more call: a pipeline runs from
the call that sets it PLAYING to the call that sets it to NULL. -/
def live_step (live : List Nat) (c : Call) : List Nat :=
  match c with
  | Call.set_state_playing p => live ++ [p]
  | Call.set_state_null p => live.erase p
  | _ => live

/-- The pipelines running after the calls, starting from `live`. -/
def live_after (live : List Nat) (calls : List Call) : List Nat :=
  calls.foldl live_step live

/-- At most one pipeline is running before the calls and after each of them,
starting from `live`. -/
def at_most_one_live_from (live : List Nat) (calls : List Call) : Bool :=
  match calls with
  | [] => decide (live.length ≤ 1)
  | c :: rest => decide (live.length ≤ 1) && at_most_one_live_from (live_step live c) rest

/-- At most one pipeline is running at every instant of the call log. -/
def at_most_one_live (calls : List Call) : Bool :=
  at_most_one_live_from [] calls

/-- The call is a create-offer. -/
def Call.is_create_offer (c : Call) : Bool :=
  match c with
  | Call.create_offer _ => true
  | _ => false

/-- The call starts or stops a pipeline. -/
def Call.is_lifecycle (c : Call) : Bool :=
  match c with
  | Call.set_state_playing _ => true
  | Call.set_state_null _ => true
  | _ => false

/-! ## Command line -/

/-- One result of `getopt_long`: the option character it returns and
`optarg`. -/
structure ParsedOption where
  c : Char
  optarg : String

/-- The C library `atoi` as glibc computes it: leading white space, an
optional sign, decimal digits; the value is held to the range of long and
then converted to int. -/
def atoi (nptr : String) : Int :=
  let cs := nptr.toList.dropWhile
    (fun ch => ch = ' ' || (decide (9 ≤ ch.toNat) && decide (ch.toNat ≤ 13)))
  let negative := cs.head? = some '-'
  let ds :=
    match cs with
    | '-' :: r => r
    | '+' :: r => r
    | r => r
  let magnitude : Int :=
    (ds.takeWhile Char.isDigit).foldl (fun acc d => acc * 10 + ((d.toNat : Int) - 48)) 0
  let value := if negative then -magnitude else magnitude
  to_gint (max (-9223372036854775808) (min value 9223372036854775807))

/-- The loop of `parse_arguments` (both files) over the results of
`getopt_long`, from the configuration written so far. -/
def parse_arguments_loop (config : Config) (opts : List ParsedOption) : Bool × Config :=
  match opts with
  | [] => (true, config)
  | o :: rest =>
    if o.c = 'c' then
      let config1 := { config with codec := o.optarg }
      if config1.codec ≠ "h264" ∧ config1.codec ≠ "h265" then (false, config1)
      else parse_arguments_loop config1 rest
    else if o.c = 'b' then
      let config1 := { config with bitrate := atoi o.optarg }
      if config1.bitrate ≤ 0 then (false, config1)
      else parse_arguments_loop config1 rest
    else if o.c = 'f' then
      let config1 := { config with fps := atoi o.optarg }
      if config1.fps ≤ 0 ∨ config1.fps > 120 then (false, config1)
      else parse_arguments_loop config1 rest
    else if o.c = 'w' then
      let config1 := { config with width := atoi o.optarg }
      if config1.width ≤ 0 then (false, config1)
      else parse_arguments_loop config1 rest
    else if o.c = 'H' then
      let config1 := { config with height := atoi o.optarg }
      if config1.height ≤ 0 then (false, config1)
      else parse_arguments_loop config1 rest
    else if o.c = 'd' then
      parse_arguments_loop { config with device := o.optarg } rest
    else (false, config)

/-- Both files, `parse_arguments`: the return value and the global `config`
it leaves. -/
def parse_arguments (opts : List ParsedOption) : Bool × Config :=
  parse_arguments_loop default_config opts

/-- Function `main` of gpt.cpp up to `g_main_loop_run`: the value it returns
when it returns before the loop (none when it reaches the loop) and the
globals at that point. -/
def Gpt.main_start (opts : List ParsedOption) (launch : LaunchResult) : Option Int × State :=
  let r := parse_arguments opts
  let s := Gpt.initial r.2
  if !r.1 then (some (-1), s)
  else
    let b := Gpt.build_and_start_pipeline launch s
    if !b.1 then (some (-1), b.2)
    else (none, { b.2 with calls := b.2.calls ++ [Call.websocket_connect_async] })

/-- The reference validator, from the words of the specification: whether a
supplied option is valid. -/
def reference_option_valid (o : ParsedOption) : Bool :=
  if o.c = 'c' then o.optarg = "h264" || o.optarg = "h265"
  else if o.c = 'b' then decide (atoi o.optarg > 0)
  else if o.c = 'f' then decide (1 ≤ atoi o.optarg) && decide (atoi o.optarg ≤ 120)
  else if o.c = 'w' then decide (atoi o.optarg > 0)
  else if o.c = 'H' then decide (atoi o.optarg > 0)
  else if o.c = 'd' then true
  else false

/-- The reference validator: the configuration with one valid option
applied. -/
def reference_apply (config : Config) (o : ParsedOption) : Config :=
  if o.c = 'c' then { config with codec := o.optarg }
  else if o.c = 'b' then { config with bitrate := atoi o.optarg }
  else if o.c = 'f' then { config with fps := atoi o.optarg }
  else if o.c = 'w' then { config with width := atoi o.optarg }
  else if o.c = 'H' then { config with height := atoi o.optarg }
  else if o.c = 'd' then { config with device := o.optarg }
  else config

/-- The reference validator: from the defaults, the options applied in order
when every one of them is valid, nothing otherwise. -/
def reference_validator (opts : List ParsedOption) : Option Config :=
  if opts.all reference_option_valid then some (opts.foldl reference_apply default_config)
  else none

/-- The handler kept the pipeline and its webrtcbin, and the calls it made
neither create an offer nor start or stop a pipeline. -/
def quiet_step (s s1 : State) : Prop :=
  s1.pipeline = s.pipeline ∧ s1.webrtc = s.webrtc ∧
    ∃ delta, s1.calls = s.calls ++ delta ∧
      ∀ c ∈ delta, c.is_create_offer = false ∧ c.is_lifecycle = false

/-- The call log shows at most one running pipeline at every instant, the
running pipeline is the global `pipeline`, and `webrtc` is NULL whenever
`pipeline` is. -/
def one_live_pipeline (s : State) : Prop :=
  at_most_one_live s.calls = true ∧ live_after [] s.calls = s.pipeline.toList ∧
    (s.pipeline = none → s.webrtc = none)

/-! ## Dispatch lemmas -/

theorem gpt_dispatch_request_offer (launch : LaunchResult) (root : Option JsonNode)
    (s : State)
    (h : json_object_get_string_member (json_node_get_object root) "type"
      = some "request-offer") :
    Gpt.on_message launch (Frame.json root) s =
      some (if !(Gpt.restart_pipeline launch s).1 then (Gpt.restart_pipeline launch s).2
        else force_renegotiate (reset_peer_state (Gpt.restart_pipeline launch s).2)) := by
  simp only [Gpt.on_message, h]
  cases (Gpt.restart_pipeline launch s).1 <;> simp

theorem request_offer_message_type (from_id : Option String) :
    json_object_get_string_member (json_node_get_object (some (request_offer_message from_id)))
      "type" = some "request-offer" := by
  cases from_id <;> rfl

theorem restart_pipeline_ok (s : State) :
    Gpt.restart_pipeline LaunchResult.ok s =
      (true, { Gpt.stop_and_destroy_pipeline s with
        pipeline := some s.next_handle
        webrtc := some (s.next_handle + 1)
        calls := (Gpt.stop_and_destroy_pipeline s).calls ++
          [Call.parse_launch (Gpt.build_pipeline_string s.config),
           Call.connect_signals (s.next_handle + 1), Call.bus_add_watch s.next_handle,
           Call.set_state_playing s.next_handle]
        next_handle := s.next_handle + 2 }) := by
  unfold Gpt.restart_pipeline Gpt.build_and_start_pipeline Gpt.stop_and_destroy_pipeline
  cases hp : s.pipeline <;> cases hw : s.webrtc <;> simp [hp, hw]

theorem stop_and_destroy_pipeline_frame (s : State) :
    (Gpt.stop_and_destroy_pipeline s).pending = s.pending ∧
    (Gpt.stop_and_destroy_pipeline s).next_handle = s.next_handle ∧
    (Gpt.stop_and_destroy_pipeline s).peer_id = s.peer_id ∧
    (Gpt.stop_and_destroy_pipeline s).my_id = s.my_id ∧
    (Gpt.stop_and_destroy_pipeline s).ws_conn = s.ws_conn ∧
    (Gpt.stop_and_destroy_pipeline s).config = s.config ∧
    (Gpt.stop_and_destroy_pipeline s).offer_in_progress = s.offer_in_progress := by
  unfold Gpt.stop_and_destroy_pipeline
  cases hp : s.pipeline <;> cases hw : s.webrtc <;> simp [hp, hw]

theorem gpt_request_offer_ok (root : Option JsonNode) (s : State)
    (h : json_object_get_string_member (json_node_get_object root) "type"
      = some "request-offer") :
    Gpt.on_message LaunchResult.ok (Frame.json root) s =
      some
        { config := s.config
          pipeline := some s.next_handle
          webrtc := some (s.next_handle + 1)
          ws_conn := s.ws_conn
          peer_id := none
          my_id := s.my_id
          offer_in_progress := true
          calls := s.calls ++
            (match s.pipeline with
              | none => []
              | some p =>
                [Call.set_state_null p] ++
                (match s.webrtc with
                  | none => []
                  | some w => [Call.unref w]) ++
                [Call.unref p]) ++
            [Call.parse_launch (Gpt.build_pipeline_string s.config),
             Call.connect_signals (s.next_handle + 1), Call.bus_add_watch s.next_handle,
             Call.set_state_playing s.next_handle,
             Call.create_offer (s.next_handle + 1)]
          pending := s.pending ++ [s.next_handle + 1]
          next_handle := s.next_handle + 2 } := by
  rw [gpt_dispatch_request_offer _ _ _ h, restart_pipeline_ok]
  unfold Gpt.stop_and_destroy_pipeline reset_peer_state force_renegotiate
  cases hp : s.pipeline <;> cases hw : s.webrtc <;> cases hq : s.peer_id <;> simp [hp, hw, hq]

theorem handles_fresh_iff (s : State) :
    handles_fresh s = true ↔
      (∀ w, s.webrtc = some w → w < s.next_handle) ∧ ∀ h ∈ s.pending, h < s.next_handle := by
  unfold handles_fresh
  cases hw : s.webrtc <;> simp [List.all_eq_true]

theorem on_offer_created_frame (promise : Nat) (reply : Option String) (s : State) :
    (on_offer_created promise reply s).pending = s.pending.eraseIdx promise ∧
    (on_offer_created promise reply s).webrtc = s.webrtc ∧
    (on_offer_created promise reply s).pipeline = s.pipeline ∧
    (on_offer_created promise reply s).next_handle = s.next_handle ∧
    (on_offer_created promise reply s).peer_id = s.peer_id ∧
    (on_offer_created promise reply s).my_id = s.my_id := by
  unfold on_offer_created send_json_message
  cases reply <;> cases hc : s.ws_conn <;> simp [hc]

theorem gpt_offer_step_invariant (e : OfferEvent) (s : State)
    (hf : handles_fresh s = true) (h1 : outstanding_on_live s ≤ 1) :
    ∃ s1, Gpt.offer_step e s = some s1 ∧ handles_fresh s1 = true ∧
      outstanding_on_live s1 ≤ 1 := by
  rw [handles_fresh_iff] at hf
  obtain ⟨hw, hp⟩ := hf
  cases e with
  | request_offer from_id =>
    have hstep := gpt_request_offer_ok _ s (request_offer_message_type from_id)
    refine ⟨_, hstep, ?_, ?_⟩
    · rw [handles_fresh_iff]
      dsimp only
      refine ⟨?_, ?_⟩
      · intro w hw1
        simp only [Option.some.injEq] at hw1
        omega
      · intro h hh
        simp only [List.mem_append, List.mem_singleton] at hh
        rcases hh with hh | hh
        · have := hp h hh
          omega
        · omega
    · have hnot : s.next_handle + 1 ∉ s.pending := by
        intro hmem
        have := hp _ hmem
        omega
      simp [outstanding_on_live, List.count_append, List.count_eq_zero_of_not_mem hnot]
  | offer_completion promise reply =>
    have hfr := on_offer_created_frame promise reply s
    obtain ⟨hpe, hwe, -, hne, -, -⟩ := hfr
    by_cases hlt : promise < s.pending.length
    · refine ⟨on_offer_created promise reply s, ?_, ?_, ?_⟩
      · simp [Gpt.offer_step, hlt]
      · rw [handles_fresh_iff, hpe, hwe, hne]
        exact ⟨hw, fun h hh => hp h ((List.eraseIdx_sublist _ _).subset hh)⟩
      · unfold outstanding_on_live at h1 ⊢
        rw [hwe, hpe]
        cases hws : s.webrtc with
        | none => simp
        | some w =>
          rw [hws] at h1
          exact le_trans ((List.eraseIdx_sublist _ _).count_le w) h1
    · refine ⟨s, ?_, ?_, h1⟩
      · simp [Gpt.offer_step, hlt]
      · rw [handles_fresh_iff]
        exact ⟨hw, hp⟩

theorem reset_peer_state_eq (s : State) :
    reset_peer_state s = { s with peer_id := none, offer_in_progress := false } := by
  unfold reset_peer_state
  cases hq : s.peer_id <;> simp [hq]

theorem has_member_of_get_string (o : Option JsonObject) (name v : String)
    (h : json_object_get_string_member o name = some v) :
    json_object_has_member o name = true := by
  unfold json_object_get_string_member at h
  unfold json_object_has_member
  cases o with
  | none => simp at h
  | some members =>
    cases hl : List.lookup name members <;> simp [hl] at h ⊢

theorem gpt_dispatch_peer_left (launch : LaunchResult) (root : Option JsonNode) (s : State)
    (h : json_object_get_string_member (json_node_get_object root) "type" = some "peer-left") :
    Gpt.on_message launch (Frame.json root) s =
      (match json_object_get_string_member (json_node_get_object root) "id", s.peer_id with
        | some l, some p =>
          if l = p then some (Gpt.restart_pipeline launch (reset_peer_state s)).2 else some s
        | _, _ => some s) := by
  simp only [Gpt.on_message, h]
  cases hid : json_object_get_string_member (json_node_get_object root) "id" with
  | none =>
    cases json_object_has_member (json_node_get_object root) "id" <;> simp
  | some l =>
    have hhas := has_member_of_get_string _ _ _ hid
    simp [hhas]

theorem index_dispatch_peer_left (root : Option JsonNode) (s : State)
    (h : json_object_get_string_member (json_node_get_object root) "type" = some "peer-left") :
    Index.on_message (Frame.json root) s =
      (match json_object_get_string_member (json_node_get_object root) "id", s.peer_id with
        | some l, some p => if l = p then some (reset_peer_state s) else some s
        | _, _ => some s) := by
  simp only [Index.on_message, h]
  cases hid : json_object_get_string_member (json_node_get_object root) "id" with
  | none =>
    cases json_object_has_member (json_node_get_object root) "id" <;> simp
  | some l =>
    have hhas := has_member_of_get_string _ _ _ hid
    simp [hhas]

/-- The draft index.cpp keeps its one webrtcbin: two request-offer messages in
a row issue two create-offer calls on it. -/
theorem index_two_request_offers (s : State) (w : Nat) (hw : s.webrtc = some w) :
    Index.offer_run
        [OfferEvent.request_offer (some "V1"), OfferEvent.request_offer (some "V2")] s =
      some { s with
        peer_id := none
        offer_in_progress := true
        calls := s.calls ++ [Call.create_offer w, Call.create_offer w]
        pending := s.pending ++ [w, w] } := by
  simp [Index.offer_run, Index.offer_step, Index.on_message, request_offer_message,
    json_node_get_object, json_object_get_string_member, List.lookup, reset_peer_state_eq,
    force_renegotiate, hw]

/-! ## Claims -/

/-- C1 (counterexample): two request-offer messages in a row, each with a
successful rebuild and no completion in between, leave two create-offer calls
outstanding: the bound of one fails. -/
theorem C1_two_offers_outstanding :
    (Gpt.offer_run [OfferEvent.request_offer (some "V1"), OfferEvent.request_offer (some "V2")]
      (Gpt.booted default_config)).map
        (fun s => (outstanding s, decide (outstanding s ≤ 1))) = some (2, false) := by
  rfl

/-- C1 (amended): in gpt.cpp, along every finite sequence of request-offer
messages (each rebuild succeeding) interleaved with offer completions, from
any state whose handles are fresh and which has at most one create-offer
outstanding on its live webrtcbin, every event is handled and at most one
create-offer is outstanding on the live webrtcbin afterwards. -/
theorem C1_one_offer_on_live_handle (events : List OfferEvent) (s : State)
    (hf : handles_fresh s = true) (h1 : outstanding_on_live s ≤ 1) :
    ∃ s1, Gpt.offer_run events s = some s1 ∧ handles_fresh s1 = true ∧
      outstanding_on_live s1 ≤ 1 := by
  induction events generalizing s with
  | nil => exact ⟨s, rfl, hf, h1⟩
  | cons e rest ih =>
    obtain ⟨s1, hs1, hf1, h11⟩ := gpt_offer_step_invariant e s hf h1
    obtain ⟨s2, hs2, hf2, h12⟩ := ih s1 hf1 h11
    exact ⟨s2, by simp [Gpt.offer_run, hs1, hs2], hf2, h12⟩

/-- C1 (witness): the booted controller handling request-offer, request-offer,
completion. -/
theorem C1_one_offer_on_live_handle_witness :
    ∃ s1, Gpt.offer_run
        [OfferEvent.request_offer (some "V1"), OfferEvent.request_offer none,
         OfferEvent.offer_completion 1 (some "v=0")]
        (Gpt.booted default_config) = some s1 ∧ handles_fresh s1 = true ∧
      outstanding_on_live s1 ≤ 1 :=
  C1_one_offer_on_live_handle _ (Gpt.booted default_config) (by rfl) (by decide)

/-- C2: with an offer in progress and a webrtcbin present, force_renegotiate
changes nothing: no call is made (no create-offer, no signaling message) and
every global keeps its value. -/
theorem C2_force_renegotiate_guarded (s : State) (w : Nat)
    (hw : s.webrtc = some w) (ho : s.offer_in_progress = true) :
    force_renegotiate s = s := by
  simp [force_renegotiate, hw, ho]

/-- C2 (witness): the booted controller with an offer in progress. -/
theorem C2_force_renegotiate_guarded_witness :
    force_renegotiate { Gpt.booted default_config with offer_in_progress := true } =
      { Gpt.booted default_config with offer_in_progress := true } :=
  C2_force_renegotiate_guarded
    { Gpt.booted default_config with offer_in_progress := true } 1 rfl rfl

/-- C3: an answer whose sdp and from are strings, handled in any state by
on_message (gpt.cpp and index.cpp alike), binds peer_id to the sender, clears
offer_in_progress and makes exactly one call, set-remote-description with the
message's sdp on the current webrtcbin; every other global is unchanged. -/
theorem C3_answer_binds_sender (launch : LaunchResult) (root : Option JsonNode) (s : State)
    (sdp from_id : String)
    (ht : json_object_get_string_member (json_node_get_object root) "type" = some "answer")
    (hs : json_object_get_string_member (json_node_get_object root) "sdp" = some sdp)
    (hf : json_object_get_string_member (json_node_get_object root) "from" = some from_id) :
    Gpt.on_message launch (Frame.json root) s =
      some { s with
        peer_id := some from_id
        offer_in_progress := false
        calls := s.calls ++ [Call.set_remote_description s.webrtc sdp] } ∧
    Index.on_message (Frame.json root) s =
      some { s with
        peer_id := some from_id
        offer_in_progress := false
        calls := s.calls ++ [Call.set_remote_description s.webrtc sdp] } := by
  simp only [Gpt.on_message, Index.on_message, ht, on_message_answer, hs, hf]
  by_cases hq : s.peer_id = some from_id <;> simp [hq]

/-- C3 (witness): an answer from V2 while peer_id is bound to V1. -/
theorem C3_answer_binds_sender_witness :
    Gpt.on_message LaunchResult.ok
        (Frame.json (some (JsonNode.obj
          [("type", JsonNode.str "answer"), ("sdp", JsonNode.str "v=0"),
           ("from", JsonNode.str "V2")])))
        { Gpt.booted default_config with peer_id := some "V1", offer_in_progress := true } =
      some { Gpt.booted default_config with
        peer_id := some "V2"
        offer_in_progress := false
        calls := (Gpt.booted default_config).calls ++
          [Call.set_remote_description (some 1) "v=0"] } :=
  (C3_answer_binds_sender LaunchResult.ok
    (some (JsonNode.obj
      [("type", JsonNode.str "answer"), ("sdp", JsonNode.str "v=0"),
       ("from", JsonNode.str "V2")]))
    { Gpt.booted default_config with peer_id := some "V1", offer_in_progress := true }
    "v=0" "V2" rfl rfl rfl).1

/-- C4 (counterexample): a peer-left of the bound peer does not always leave
a rebuilt handle. In gpt.cpp, when the build fails, the handler ends with no
pipeline and no webrtcbin; in index.cpp the handler makes no call at all and
keeps the handle it had. -/
theorem C4_peer_left_not_rebuilt :
    (Gpt.run
        [Event.message LaunchResult.ok (Frame.json (some (request_offer_message (some "V1")))),
         Event.offer_created 0 (some "v=0 o"),
         Event.message LaunchResult.ok (Frame.json (some (answer_message "v=0 a" "V1"))),
         Event.message LaunchResult.error (Frame.json (some (JsonNode.obj
           [("type", JsonNode.str "peer-left"), ("id", JsonNode.str "V1")])))]
        (Gpt.booted default_config)).map (fun s => (s.peer_id, s.pipeline, s.webrtc)) =
      some (none, none, none) ∧
    ((Index.on_message (Frame.json (some (answer_message "v=0 a" "V1")))
        (Index.booted default_config)).bind
      (Index.on_message (Frame.json (some (JsonNode.obj
        [("type", JsonNode.str "peer-left"), ("id", JsonNode.str "V1")]))))).map
      (fun s => (s.peer_id, s.pipeline, s.webrtc, s.calls.drop 5)) =
      some (none, some 0, some 1, [Call.set_remote_description (some 1) "v=0 a"]) := by
  constructor <;> rfl

/-- C4 (amended): a peer-left message handled by on_message. When its id is
the bound peer_id, peer_id is cleared and offer_in_progress is FALSE; gpt.cpp
then tears down the existing pipeline, if there is one, and attempts one
build, which leaves the new handle when it succeeds and no pipeline when it
fails; index.cpp makes no call and keeps its handle. When the id is missing,
differs from peer_id or no peer is bound, the state is unchanged and no call
is made, in both files. -/
theorem C4_peer_left (launch : LaunchResult) (root : Option JsonNode) (s : State)
    (ht : json_object_get_string_member (json_node_get_object root) "type" = some "peer-left") :
    (∀ id, json_object_get_string_member (json_node_get_object root) "id" = some id →
      s.peer_id = some id →
      (∃ s1, Gpt.on_message launch (Frame.json root) s = some s1 ∧
        s1.peer_id = none ∧ s1.offer_in_progress = false ∧ s1.my_id = s.my_id ∧
        s1.calls = s.calls ++
          (match s.pipeline with
            | none => []
            | some p =>
              [Call.set_state_null p] ++
              (match s.webrtc with
                | none => []
                | some w => [Call.unref w]) ++
              [Call.unref p]) ++
          [Call.parse_launch (Gpt.build_pipeline_string s.config)] ++
          (match launch with
            | LaunchResult.error => []
            | LaunchResult.no_webrtcbin => [Call.unref s.next_handle]
            | LaunchResult.ok =>
              [Call.connect_signals (s.next_handle + 1), Call.bus_add_watch s.next_handle,
               Call.set_state_playing s.next_handle]) ∧
        s1.pipeline = (match launch with
          | LaunchResult.ok => some s.next_handle
          | _ => none) ∧
        s1.webrtc = (match launch with
          | LaunchResult.ok => some (s.next_handle + 1)
          | LaunchResult.no_webrtcbin => none
          | LaunchResult.error => if s.pipeline.isSome then none else s.webrtc)) ∧
      Index.on_message (Frame.json root) s =
        some { s with peer_id := none, offer_in_progress := false }) ∧
    ((∀ id, json_object_get_string_member (json_node_get_object root) "id" = some id →
        s.peer_id ≠ some id) →
      Gpt.on_message launch (Frame.json root) s = some s ∧
      Index.on_message (Frame.json root) s = some s) := by
  rw [gpt_dispatch_peer_left launch root s ht, index_dispatch_peer_left root s ht]
  constructor
  · intro id hid hp
    rw [hid, hp]
    refine ⟨⟨(Gpt.restart_pipeline launch (reset_peer_state s)).2, by simp, ?_⟩, ?_⟩
    · rw [reset_peer_state_eq]
      simp only [Gpt.restart_pipeline, Gpt.build_and_start_pipeline,
        Gpt.stop_and_destroy_pipeline]
      cases launch <;> cases hpl : s.pipeline <;> cases hw : s.webrtc <;> simp
    · simp [reset_peer_state_eq]
  · intro hne
    cases hid : json_object_get_string_member (json_node_get_object root) "id" with
    | none => simp
    | some l =>
      cases hp : s.peer_id with
      | none => simp
      | some p =>
        have hlp : l ≠ p := by
          intro h
          exact hne l hid (by rw [hp, h])
        simp [hlp]

/-- C4 (witness): bound to V1, peer-left of V1 rebuilds the handle in gpt.cpp
and only resets the peer in index.cpp; peer-left of V2 changes nothing. -/
theorem C4_peer_left_witness :
    ((∃ s1, Gpt.on_message LaunchResult.ok
        (Frame.json (some (JsonNode.obj
          [("type", JsonNode.str "peer-left"), ("id", JsonNode.str "V1")])))
        { Gpt.booted default_config with peer_id := some "V1" } = some s1 ∧
      s1.peer_id = none ∧ s1.offer_in_progress = false ∧
      s1.pipeline = some 2 ∧ s1.webrtc = some 3) ∧
     Index.on_message
        (Frame.json (some (JsonNode.obj
          [("type", JsonNode.str "peer-left"), ("id", JsonNode.str "V1")])))
        { Gpt.booted default_config with peer_id := some "V1" } =
      some { Gpt.booted default_config with peer_id := none, offer_in_progress := false }) ∧
    Gpt.on_message LaunchResult.ok
        (Frame.json (some (JsonNode.obj
          [("type", JsonNode.str "peer-left"), ("id", JsonNode.str "V2")])))
        { Gpt.booted default_config with peer_id := some "V1" } =
      some { Gpt.booted default_config with peer_id := some "V1" } := by
  constructor
  · obtain ⟨⟨s1, h1, h2, h3, -, -, h6, h7⟩, hi⟩ :=
      (C4_peer_left LaunchResult.ok
        (some (JsonNode.obj [("type", JsonNode.str "peer-left"), ("id", JsonNode.str "V1")]))
        { Gpt.booted default_config with peer_id := some "V1" } rfl).1 "V1" rfl rfl
    exact ⟨⟨s1, h1, h2, h3, h6, h7⟩, hi⟩
  · exact ((C4_peer_left LaunchResult.ok
        (some (JsonNode.obj [("type", JsonNode.str "peer-left"), ("id", JsonNode.str "V2")]))
        { Gpt.booted default_config with peer_id := some "V1" } rfl).2
      (by
        intro id hid
        have h2 : id = "V2" := by
          have : some "V2" = some id := hid
          exact (Option.some.inj this).symm
        subst h2
        decide)).1

/-- C5: in any state, the ICE connection-state handler observing failed,
disconnected or closed clears peer_id and offer_in_progress and does nothing
else: pipeline and webrtc keep their values and no call is made. -/
theorem C5_ice_failure_resets_peer_only (s : State) :
    on_ice_connection_state_notify IceConnectionState.failed s =
      { s with peer_id := none, offer_in_progress := false } ∧
    on_ice_connection_state_notify IceConnectionState.disconnected s =
      { s with peer_id := none, offer_in_progress := false } ∧
    on_ice_connection_state_notify IceConnectionState.closed s =
      { s with peer_id := none, offer_in_progress := false } := by
  simp only [on_ice_connection_state_notify, reset_peer_state]
  cases hq : s.peer_id <;> simp [hq]

/-- C6: an ice-candidate message whose candidate.candidate is absent or the
empty string is dropped by on_message (gpt.cpp and index.cpp alike): no call
is made, so no add-ice-candidate, and the state is unchanged. -/
theorem C6_empty_candidate_dropped (launch : LaunchResult) (root : Option JsonNode)
    (s : State)
    (ht : json_object_get_string_member (json_node_get_object root) "type"
      = some "ice-candidate")
    (hc : json_object_get_string_member
        (json_object_get_object_member (json_node_get_object root) "candidate") "candidate"
          = none ∨
      json_object_get_string_member
        (json_object_get_object_member (json_node_get_object root) "candidate") "candidate"
          = some "") :
    Gpt.on_message launch (Frame.json root) s = some s ∧
    Index.on_message (Frame.json root) s = some s := by
  simp only [Gpt.on_message, Index.on_message, ht, on_message_ice_candidate]
  rcases hc with hc | hc <;>
    cases json_object_has_member (json_node_get_object root) "candidate" <;> simp [hc]

/-- C6 (witness): the end-of-candidates message. -/
theorem C6_empty_candidate_dropped_witness :
    Gpt.on_message LaunchResult.ok
        (Frame.json (some (JsonNode.obj
          [("type", JsonNode.str "ice-candidate"),
           ("candidate", JsonNode.obj
             [("candidate", JsonNode.str ""), ("sdpMLineIndex", JsonNode.int 0)])])))
        (Gpt.booted default_config) = some (Gpt.booted default_config) ∧
    Index.on_message
        (Frame.json (some (JsonNode.obj
          [("type", JsonNode.str "ice-candidate"),
           ("candidate", JsonNode.obj
             [("candidate", JsonNode.str ""), ("sdpMLineIndex", JsonNode.int 0)])])))
        (Gpt.booted default_config) = some (Gpt.booted default_config) :=
  C6_empty_candidate_dropped LaunchResult.ok _ (Gpt.booted default_config) rfl (Or.inr rfl)

/-- C7: a request-offer message (with or without from) whose rebuild succeeds,
handled by on_message of gpt.cpp in any state: the old pipeline is torn down,
a new one is built and started, peer_id is unset, and exactly one create-offer
is issued, on the new webrtcbin, with offer_in_progress TRUE afterwards,
whatever peer_id and offer_in_progress were before. -/
theorem C7_request_offer_rebuilds_and_offers (root : Option JsonNode) (s : State)
    (ht : json_object_get_string_member (json_node_get_object root) "type"
      = some "request-offer") :
    Gpt.on_message LaunchResult.ok (Frame.json root) s =
      some
        { config := s.config
          pipeline := some s.next_handle
          webrtc := some (s.next_handle + 1)
          ws_conn := s.ws_conn
          peer_id := none
          my_id := s.my_id
          offer_in_progress := true
          calls := s.calls ++
            (match s.pipeline with
              | none => []
              | some p =>
                [Call.set_state_null p] ++
                (match s.webrtc with
                  | none => []
                  | some w => [Call.unref w]) ++
                [Call.unref p]) ++
            [Call.parse_launch (Gpt.build_pipeline_string s.config),
             Call.connect_signals (s.next_handle + 1), Call.bus_add_watch s.next_handle,
             Call.set_state_playing s.next_handle,
             Call.create_offer (s.next_handle + 1)]
          pending := s.pending ++ [s.next_handle + 1]
          next_handle := s.next_handle + 2 } :=
  gpt_request_offer_ok root s ht

/-- C7 (witness): request-offer from V2 while bound to V1 with an offer in
progress. -/
theorem C7_request_offer_rebuilds_and_offers_witness :
    (Gpt.on_message LaunchResult.ok
        (Frame.json (some (JsonNode.obj
          [("type", JsonNode.str "request-offer"), ("from", JsonNode.str "V2")])))
        { Gpt.booted default_config with peer_id := some "V1", offer_in_progress := true }).map
      (fun s => (s.pipeline, s.webrtc, s.peer_id, s.offer_in_progress, s.pending)) =
      some (some 2, some 3, none, true, [3]) := by
  rw [C7_request_offer_rebuilds_and_offers
    (some (JsonNode.obj [("type", JsonNode.str "request-offer"), ("from", JsonNode.str "V2")]))
    { Gpt.booted default_config with peer_id := some "V1", offer_in_progress := true } rfl]
  rfl

/-- C8 (counterexample): after a request-offer and the completion of its
create-offer with a description, the local description has been applied and
the offer sent, yet offer_in_progress is still TRUE. -/
theorem C8_flag_still_set_after_offer_sent :
    (Gpt.offer_run
        [OfferEvent.request_offer (some "V1"), OfferEvent.offer_completion 0 (some "v=0")]
        (Gpt.booted default_config)).map
      (fun s => (s.offer_in_progress, s.calls.drop (s.calls.length - 2))) =
      some (true,
        [Call.set_local_description (some 3) "v=0",
         Call.send_text [("type", JsonNode.str "offer"), ("sdp", JsonNode.str "v=0")]]) := by
  rfl

/-- C8 (amended): on_offer_created with a successfully created description
applies it as the local description, sends the offer message when the
websocket is connected, and leaves offer_in_progress as it was (TRUE after
create-offer was issued); on_offer_created clears the flag only when the reply
holds no offer. -/
theorem C8_offer_created_keeps_flag (promise : Nat) (sdp : String) (s : State) :
    (on_offer_created promise (some sdp) s).offer_in_progress = s.offer_in_progress ∧
    (on_offer_created promise (some sdp) s).calls =
      s.calls ++ [Call.set_local_description s.webrtc sdp] ++
        (if s.ws_conn then
          [Call.send_text [("type", JsonNode.str "offer"), ("sdp", JsonNode.str sdp)]]
        else []) ∧
    (on_offer_created promise none s).offer_in_progress = false := by
  unfold on_offer_created send_json_message
  cases hc : s.ws_conn <;>
    simp [hc, json_object_set_string_member, json_object_set_member, List.lookup]

/-- C9: with the websocket connected, on_ice_candidate (gpt.cpp and index.cpp
alike) sends exactly one message and changes nothing else; the message has
type ice-candidate, its candidate.candidate and candidate.sdpMLineIndex are
the inputs, and its to field is present exactly when peer_id is bound,
holding peer_id. -/
theorem C9_local_candidate_sent (mlineindex : Nat) (candidate : String) (s : State)
    (hc : s.ws_conn = true) :
    (∃ msg, Gpt.on_ice_candidate mlineindex candidate s =
        { s with calls := s.calls ++ [Call.send_text msg] } ∧
      json_object_get_string_member (some msg) "type" = some "ice-candidate" ∧
      json_object_get_string_member
        (json_object_get_object_member (some msg) "candidate") "candidate" = some candidate ∧
      json_object_has_member
        (json_object_get_object_member (some msg) "candidate") "sdpMLineIndex" = true ∧
      json_object_get_int_member
        (json_object_get_object_member (some msg) "candidate") "sdpMLineIndex" = mlineindex ∧
      json_object_has_member (some msg) "to" = s.peer_id.isSome ∧
      json_object_get_string_member (some msg) "to" = s.peer_id) ∧
    (∃ msg, Index.on_ice_candidate mlineindex candidate s =
        { s with calls := s.calls ++ [Call.send_text msg] } ∧
      json_object_get_string_member (some msg) "type" = some "ice-candidate" ∧
      json_object_get_string_member
        (json_object_get_object_member (some msg) "candidate") "candidate" = some candidate ∧
      json_object_has_member
        (json_object_get_object_member (some msg) "candidate") "sdpMLineIndex" = true ∧
      json_object_get_int_member
        (json_object_get_object_member (some msg) "candidate") "sdpMLineIndex" = mlineindex ∧
      json_object_has_member (some msg) "to" = s.peer_id.isSome ∧
      json_object_get_string_member (some msg) "to" = s.peer_id) := by
  constructor
  · unfold Gpt.on_ice_candidate Gpt.send_ice_candidate_message send_json_message
    cases hq : s.peer_id with
    | none =>
      simp [hc, json_object_set_string_member, json_object_set_int_member,
        json_object_set_object_member, json_object_set_member, List.lookup,
        json_object_get_string_member, json_object_get_object_member,
        json_object_get_int_member, json_object_has_member]
      rintro a b (⟨rfl, -⟩ | ⟨rfl, -⟩) <;> decide
    | some p =>
      simp [hc, json_object_set_string_member, json_object_set_int_member,
        json_object_set_object_member, json_object_set_member, List.lookup,
        json_object_get_string_member, json_object_get_object_member,
        json_object_get_int_member, json_object_has_member]
  · unfold Index.on_ice_candidate Index.send_ice_candidate_message send_json_message
    cases hq : s.peer_id with
    | none =>
      simp [hc, json_object_set_string_member, json_object_set_int_member,
        json_object_set_object_member, json_object_set_member, List.lookup,
        json_object_get_string_member, json_object_get_object_member,
        json_object_get_int_member, json_object_has_member]
      rintro a b (⟨rfl, -⟩ | ⟨rfl, -⟩) <;> decide
    | some p =>
      simp [hc, json_object_set_string_member, json_object_set_int_member,
        json_object_set_object_member, json_object_set_member, List.lookup,
        json_object_get_string_member, json_object_get_object_member,
        json_object_get_int_member, json_object_has_member]

/-- C9 (witness): a candidate generated while bound to V1, in gpt.cpp and in
index.cpp. -/
theorem C9_local_candidate_sent_witness :
    (∃ msg, Gpt.on_ice_candidate 1 "candidate:1 1 UDP 1 10.0.0.1 5000 typ host"
        { Gpt.booted default_config with peer_id := some "V1" } =
        { Gpt.booted default_config with
          peer_id := some "V1"
          calls := (Gpt.booted default_config).calls ++ [Call.send_text msg] } ∧
      json_object_get_string_member (some msg) "type" = some "ice-candidate" ∧
      json_object_get_string_member
        (json_object_get_object_member (some msg) "candidate") "candidate"
          = some "candidate:1 1 UDP 1 10.0.0.1 5000 typ host" ∧
      json_object_has_member
        (json_object_get_object_member (some msg) "candidate") "sdpMLineIndex" = true ∧
      json_object_get_int_member
        (json_object_get_object_member (some msg) "candidate") "sdpMLineIndex" = 1 ∧
      json_object_has_member (some msg) "to" = true ∧
      json_object_get_string_member (some msg) "to" = some "V1") ∧
    (∃ msg, Index.on_ice_candidate 1 "candidate:1 1 UDP 1 10.0.0.1 5000 typ host"
        { Index.booted default_config with peer_id := some "V1" } =
        { Index.booted default_config with
          peer_id := some "V1"
          calls := (Index.booted default_config).calls ++ [Call.send_text msg] } ∧
      json_object_get_string_member (some msg) "type" = some "ice-candidate" ∧
      json_object_get_string_member
        (json_object_get_object_member (some msg) "candidate") "candidate"
          = some "candidate:1 1 UDP 1 10.0.0.1 5000 typ host" ∧
      json_object_has_member
        (json_object_get_object_member (some msg) "candidate") "sdpMLineIndex" = true ∧
      json_object_get_int_member
        (json_object_get_object_member (some msg) "candidate") "sdpMLineIndex" = 1 ∧
      json_object_has_member (some msg) "to" = true ∧
      json_object_get_string_member (some msg) "to" = some "V1") :=
  ⟨(C9_local_candidate_sent 1 "candidate:1 1 UDP 1 10.0.0.1 5000 typ host"
      { Gpt.booted default_config with peer_id := some "V1" } rfl).1,
   (C9_local_candidate_sent 1 "candidate:1 1 UDP 1 10.0.0.1 5000 typ host"
      { Index.booted default_config with peer_id := some "V1" } rfl).2⟩

/-- C10 (counterexample): the message send_ice_candidate_message of index.cpp
builds for media line 1 has a candidate object with a third member, sdpMid. -/
theorem C10_index_candidate_carries_sdpMid :
    (Index.send_ice_candidate_message 1 "candidate:1 1 UDP 1 10.0.0.1 5000 typ host"
        (Index.booted default_config)).calls.drop 5 =
      [Call.send_text
        [("type", JsonNode.str "ice-candidate"),
         ("candidate", JsonNode.obj
            [("candidate", JsonNode.str "candidate:1 1 UDP 1 10.0.0.1 5000 typ host"),
             ("sdpMLineIndex", JsonNode.int 1),
             ("sdpMid", JsonNode.str "audio1")])]] ∧
    json_object_has_member
      (some [("candidate", JsonNode.str "candidate:1 1 UDP 1 10.0.0.1 5000 typ host"),
        ("sdpMLineIndex", JsonNode.int 1),
        ("sdpMid", JsonNode.str "audio1")]) "sdpMid" = true := by
  constructor <;> rfl

/-- C10 (amended): the only call send_ice_candidate_message makes is the send
of the message it builds (when the websocket is connected). In gpt.cpp the
candidate object of that message has the members candidate and sdpMLineIndex
and no other, so no sdpMid; in index.cpp it has a third member sdpMid, audio1
for media line 1 and video0 for every other. -/
theorem C10_candidate_without_sdpMid (mlineindex : Nat) (candidate : String) (s : State) :
    (Gpt.send_ice_candidate_message mlineindex candidate s).calls =
      s.calls ++
        (if s.ws_conn then
          [Call.send_text
            ([("type", JsonNode.str "ice-candidate"),
              ("candidate", JsonNode.obj
                [("candidate", JsonNode.str candidate),
                 ("sdpMLineIndex", JsonNode.int mlineindex)])] ++
              (match s.peer_id with
                | some p => [("to", JsonNode.str p)]
                | none => []))]
        else []) ∧
    json_object_has_member
      (some [("candidate", JsonNode.str candidate),
        ("sdpMLineIndex", JsonNode.int mlineindex)]) "sdpMid" = false ∧
    (Index.send_ice_candidate_message mlineindex candidate s).calls =
      s.calls ++
        (if s.ws_conn then
          [Call.send_text
            ([("type", JsonNode.str "ice-candidate"),
              ("candidate", JsonNode.obj
                [("candidate", JsonNode.str candidate),
                 ("sdpMLineIndex", JsonNode.int mlineindex),
                 ("sdpMid", JsonNode.str (if mlineindex = 1 then "audio1" else "video0"))])] ++
              (match s.peer_id with
                | some p => [("to", JsonNode.str p)]
                | none => []))]
        else []) := by
  refine ⟨?_, ?_, ?_⟩
  · unfold Gpt.send_ice_candidate_message send_json_message
    cases hq : s.peer_id <;> cases hc : s.ws_conn <;>
      simp [json_object_set_string_member, json_object_set_int_member,
        json_object_set_object_member, json_object_set_member, List.lookup]
  · simp [json_object_has_member, List.lookup]
  · unfold Index.send_ice_candidate_message send_json_message
    by_cases h0 : mlineindex = 0 <;> by_cases h1 : mlineindex = 1 <;>
      cases hq : s.peer_id <;> cases hc : s.ws_conn <;>
      simp [h0, h1, json_object_set_string_member, json_object_set_int_member,
        json_object_set_object_member, json_object_set_member, List.lookup]

/-- The draft index.cpp differs from gpt.cpp here: its candidate object also
carries sdpMid, chosen from the media-line index. -/
theorem index_candidate_has_sdpMid (mlineindex : Nat) (candidate : String) (s : State)
    (hc : s.ws_conn = true) (hq : s.peer_id = none) :
    (Index.send_ice_candidate_message mlineindex candidate s).calls =
      s.calls ++
        [Call.send_text
          [("type", JsonNode.str "ice-candidate"),
           ("candidate", JsonNode.obj
              [("candidate", JsonNode.str candidate),
               ("sdpMLineIndex", JsonNode.int mlineindex),
               ("sdpMid", JsonNode.str
                 (if mlineindex = 0 then "video0"
                  else if mlineindex = 1 then "audio1" else "video0"))])]] := by
  unfold Index.send_ice_candidate_message send_json_message
  simp [hc, hq, json_object_set_string_member, json_object_set_int_member,
    json_object_set_object_member, json_object_set_member, List.lookup]

/-! ## Frame lemmas for the remaining claims -/

theorem build_and_start_pipeline_frame (launch : LaunchResult) (s : State) :
    (Gpt.build_and_start_pipeline launch s).2.pending = s.pending ∧
    (Gpt.build_and_start_pipeline launch s).2.peer_id = s.peer_id ∧
    (Gpt.build_and_start_pipeline launch s).2.my_id = s.my_id ∧
    (Gpt.build_and_start_pipeline launch s).2.ws_conn = s.ws_conn ∧
    (Gpt.build_and_start_pipeline launch s).2.config = s.config ∧
    (Gpt.build_and_start_pipeline launch s).2.offer_in_progress = s.offer_in_progress := by
  unfold Gpt.build_and_start_pipeline
  cases launch <;> simp

theorem restart_pipeline_frame (launch : LaunchResult) (s : State) :
    (Gpt.restart_pipeline launch s).2.pending = s.pending ∧
    (Gpt.restart_pipeline launch s).2.peer_id = s.peer_id ∧
    (Gpt.restart_pipeline launch s).2.my_id = s.my_id ∧
    (Gpt.restart_pipeline launch s).2.ws_conn = s.ws_conn ∧
    (Gpt.restart_pipeline launch s).2.config = s.config ∧
    (Gpt.restart_pipeline launch s).2.offer_in_progress = s.offer_in_progress := by
  unfold Gpt.restart_pipeline
  obtain ⟨h1, h2, h3, h4, h5, h6⟩ :=
    build_and_start_pipeline_frame launch (Gpt.stop_and_destroy_pipeline s)
  obtain ⟨g1, -, g2, g3, g4, g5, g6⟩ := stop_and_destroy_pipeline_frame s
  exact ⟨h1.trans g1, h2.trans g2, h3.trans g3, h4.trans g4, h5.trans g5, h6.trans g6⟩

theorem on_message_answer_frame (object : Option JsonObject) (s s1 : State)
    (h : on_message_answer object s = some s1) :
    s1.my_id = s.my_id ∧ s1.pipeline = s.pipeline ∧ s1.webrtc = s.webrtc ∧
    s1.pending = s.pending ∧ s1.next_handle = s.next_handle ∧ s1.ws_conn = s.ws_conn ∧
    ∃ sdp, s1.calls = s.calls ++ [Call.set_remote_description s.webrtc sdp] := by
  unfold on_message_answer at h
  cases hs : json_object_get_string_member object "sdp" with
  | none => simp [hs] at h
  | some sdp =>
    simp only [hs, Option.some.injEq] at h
    subst h
    by_cases hq :
      (s.peer_id.isNone || s.peer_id != json_object_get_string_member object "from") = true
    · rw [if_pos hq]
      exact ⟨rfl, rfl, rfl, rfl, rfl, rfl, sdp, rfl⟩
    · rw [if_neg hq]
      exact ⟨rfl, rfl, rfl, rfl, rfl, rfl, sdp, rfl⟩

theorem on_message_ice_candidate_frame (object : Option JsonObject) (s : State) :
    (on_message_ice_candidate object s).my_id = s.my_id ∧
    (on_message_ice_candidate object s).peer_id = s.peer_id ∧
    (on_message_ice_candidate object s).offer_in_progress = s.offer_in_progress ∧
    (on_message_ice_candidate object s).pipeline = s.pipeline ∧
    (on_message_ice_candidate object s).webrtc = s.webrtc ∧
    (on_message_ice_candidate object s).pending = s.pending ∧
    (on_message_ice_candidate object s).next_handle = s.next_handle ∧
    (on_message_ice_candidate object s).ws_conn = s.ws_conn ∧
    ((on_message_ice_candidate object s).calls = s.calls ∨
      ∃ m c, (on_message_ice_candidate object s).calls =
        s.calls ++ [Call.add_ice_candidate s.webrtc m c]) := by
  unfold on_message_ice_candidate
  cases json_object_has_member object "candidate"
  · simp
  · cases hc : json_object_get_string_member
        (json_object_get_object_member object "candidate") "candidate" with
    | none => simp [hc]
    | some c =>
      by_cases he : c = ""
      · simp [hc, he]
      · simp [hc, he]

theorem gpt_on_message_cases (launch : LaunchResult) (root : Option JsonNode) (s : State) :
    (json_object_get_string_member (json_node_get_object root) "type" = some "registered" ∧
      Gpt.on_message launch (Frame.json root) s =
        some { s with my_id := json_object_get_string_member (json_node_get_object root) "id" }) ∨
    (json_object_get_string_member (json_node_get_object root) "type" = some "answer" ∧
      Gpt.on_message launch (Frame.json root) s =
        on_message_answer (json_node_get_object root) s) ∨
    (json_object_get_string_member (json_node_get_object root) "type" = some "ice-candidate" ∧
      Gpt.on_message launch (Frame.json root) s =
        some (on_message_ice_candidate (json_node_get_object root) s)) ∨
    (json_object_get_string_member (json_node_get_object root) "type" = some "request-offer" ∧
      Gpt.on_message launch (Frame.json root) s =
        some (if !(Gpt.restart_pipeline launch s).1 then (Gpt.restart_pipeline launch s).2
          else force_renegotiate (reset_peer_state (Gpt.restart_pipeline launch s).2))) ∨
    (json_object_get_string_member (json_node_get_object root) "type" = some "peer-left" ∧
      (Gpt.on_message launch (Frame.json root) s = some s ∨
        Gpt.on_message launch (Frame.json root) s =
          some (Gpt.restart_pipeline launch (reset_peer_state s)).2)) ∨
    (json_object_get_string_member (json_node_get_object root) "type" ≠ some "registered" ∧
      json_object_get_string_member (json_node_get_object root) "type" ≠ some "request-offer" ∧
      Gpt.on_message launch (Frame.json root) s = some s) := by
  by_cases h1 : json_object_get_string_member (json_node_get_object root) "type"
      = some "registered"
  · exact Or.inl ⟨h1, by simp [Gpt.on_message, h1]⟩
  by_cases h2 : json_object_get_string_member (json_node_get_object root) "type" = some "answer"
  · exact Or.inr (Or.inl ⟨h2, by simp [Gpt.on_message, h2]⟩)
  by_cases h3 : json_object_get_string_member (json_node_get_object root) "type"
      = some "ice-candidate"
  · exact Or.inr (Or.inr (Or.inl ⟨h3, by simp [Gpt.on_message, h3]⟩))
  by_cases h4 : json_object_get_string_member (json_node_get_object root) "type"
      = some "request-offer"
  · exact Or.inr (Or.inr (Or.inr (Or.inl ⟨h4, gpt_dispatch_request_offer launch root s h4⟩)))
  by_cases h5 : json_object_get_string_member (json_node_get_object root) "type"
      = some "peer-left"
  · refine Or.inr (Or.inr (Or.inr (Or.inr (Or.inl ⟨h5, ?_⟩))))
    rw [gpt_dispatch_peer_left launch root s h5]
    cases json_object_get_string_member (json_node_get_object root) "id" with
    | none => simp
    | some l =>
      cases s.peer_id with
      | none => simp
      | some q =>
        by_cases hlq : l = q
        · right
          simp [hlq]
        · left
          simp [hlq]
  · exact Or.inr (Or.inr (Or.inr (Or.inr (Or.inr
      ⟨h1, h4, by simp [Gpt.on_message, h1, h2, h3, h4, h5]⟩))))

theorem quiet_step_refl (s : State) : quiet_step s s :=
  ⟨rfl, rfl, [], by simp, by simp⟩

theorem quiet_step_one (s s1 : State) (c : Call) (hp : s1.pipeline = s.pipeline)
    (hw : s1.webrtc = s.webrtc) (hc : s1.calls = s.calls ++ [c])
    (h1 : c.is_create_offer = false) (h2 : c.is_lifecycle = false) : quiet_step s s1 :=
  ⟨hp, hw, [c], hc, by
    intro d hd
    simp only [List.mem_singleton] at hd
    subst hd
    exact ⟨h1, h2⟩⟩

theorem quiet_step_trans (s s1 s2 : State) (h1 : quiet_step s s1) (h2 : quiet_step s1 s2) :
    quiet_step s s2 := by
  obtain ⟨p1, w1, d1, c1, q1⟩ := h1
  obtain ⟨p2, w2, d2, c2, q2⟩ := h2
  refine ⟨p2.trans p1, w2.trans w1, d1 ++ d2, by rw [c2, c1, List.append_assoc], ?_⟩
  intro c hc
  rcases List.mem_append.mp hc with h | h
  · exact q1 c h
  · exact q2 c h

theorem send_json_message_quiet (msg : JsonObject) (s : State) :
    quiet_step s (send_json_message msg s) := by
  unfold send_json_message
  cases hc : s.ws_conn
  · simpa using quiet_step_refl s
  · simp only [Bool.not_true, Bool.false_eq_true, if_false]
    exact quiet_step_one _ _ (Call.send_text msg) rfl rfl rfl rfl rfl

theorem reset_peer_state_quiet (s : State) : quiet_step s (reset_peer_state s) := by
  rw [reset_peer_state_eq]
  exact ⟨rfl, rfl, [], by simp, by simp⟩

theorem on_offer_created_quiet (promise : Nat) (reply : Option String) (s : State) :
    quiet_step s (on_offer_created promise reply s) := by
  unfold on_offer_created
  cases reply with
  | none => exact ⟨rfl, rfl, [], by simp, by simp⟩
  | some sdp =>
    refine quiet_step_trans _ _ _ ?_ (send_json_message_quiet _ _)
    exact quiet_step_one _ _ (Call.set_local_description s.webrtc sdp) rfl rfl rfl rfl rfl

theorem gpt_step_cases (e : Event) (s s1 : State) (h : Gpt.step e s = some s1) :
    quiet_step s s1 ∨
    (∃ launch, e.message_type = some "request-offer" ∧
      s1 = (if !(Gpt.restart_pipeline launch s).1 then (Gpt.restart_pipeline launch s).2
        else force_renegotiate (reset_peer_state (Gpt.restart_pipeline launch s).2))) ∨
    (∃ launch, e.message_type = some "peer-left" ∧
      s1 = (Gpt.restart_pipeline launch (reset_peer_state s)).2) := by
  cases e with
  | message launch frame =>
    cases frame with
    | binary =>
      simp only [Gpt.step, Gpt.on_message, Option.some.injEq] at h
      subst h
      exact Or.inl (quiet_step_refl s)
    | malformed =>
      simp only [Gpt.step, Gpt.on_message, Option.some.injEq] at h
      subst h
      exact Or.inl (quiet_step_refl s)
    | json root =>
      have h0 : Gpt.on_message launch (Frame.json root) s = some s1 := h
      rcases gpt_on_message_cases launch root s with
        ⟨-, hr⟩ | ⟨-, hr⟩ | ⟨-, hr⟩ | ⟨ht, hr⟩ | ⟨ht, hr | hr⟩ | ⟨-, -, hr⟩
      · rw [hr, Option.some.injEq] at h0
        subst h0
        exact Or.inl ⟨rfl, rfl, [], by simp, by simp⟩
      · rw [hr] at h0
        obtain ⟨-, hp, hw, -, -, -, sdp, hc⟩ := on_message_answer_frame _ _ _ h0
        exact Or.inl (quiet_step_one _ _ _ hp hw hc rfl rfl)
      · rw [hr, Option.some.injEq] at h0
        subst h0
        obtain ⟨-, -, -, hp, hw, -, -, -, hc | ⟨m, c, hc⟩⟩ :=
          on_message_ice_candidate_frame (json_node_get_object root) s
        · exact Or.inl ⟨hp, hw, [], by simpa using hc, by simp⟩
        · exact Or.inl (quiet_step_one _ _ _ hp hw hc rfl rfl)
      · rw [hr, Option.some.injEq] at h0
        exact Or.inr (Or.inl ⟨launch, ht, h0.symm⟩)
      · rw [hr, Option.some.injEq] at h0
        subst h0
        exact Or.inl (quiet_step_refl s)
      · rw [hr, Option.some.injEq] at h0
        exact Or.inr (Or.inr ⟨launch, ht, h0.symm⟩)
      · rw [hr, Option.some.injEq] at h0
        subst h0
        exact Or.inl (quiet_step_refl s)
  | negotiation_needed =>
    simp only [Gpt.step, on_negotiation_needed, Option.some.injEq] at h
    subst h
    exact Or.inl (quiet_step_refl s)
  | ice_candidate m c =>
    simp only [Gpt.step, Gpt.on_ice_candidate, Gpt.send_ice_candidate_message,
      Option.some.injEq] at h
    subst h
    exact Or.inl (send_json_message_quiet _ _)
  | incoming_stream =>
    simp only [Gpt.step, on_incoming_stream, Option.some.injEq] at h
    subst h
    exact Or.inl (quiet_step_refl s)
  | ice_connection_state st =>
    simp only [Gpt.step, Option.some.injEq] at h
    subst h
    cases st <;>
      first
      | exact Or.inl (quiet_step_refl s)
      | exact Or.inl (reset_peer_state_quiet s)
  | offer_created promise reply =>
    simp only [Gpt.step] at h
    by_cases hlt : promise < s.pending.length
    · simp only [hlt, if_true, Option.some.injEq] at h
      subst h
      exact Or.inl (on_offer_created_quiet _ _ _)
    · simp only [hlt, if_false, Option.some.injEq] at h
      subst h
      exact Or.inl (quiet_step_refl s)
  | bus_message m =>
    simp only [Gpt.step, Option.some.injEq] at h
    subst h
    cases m <;>
      first
      | exact Or.inl (quiet_step_refl s)
      | exact Or.inl (quiet_step_one _ _ Call.main_loop_quit rfl rfl rfl rfl rfl)
  | websocket_closed =>
    simp only [Gpt.step, Option.some.injEq] at h
    subst h
    exact Or.inl (quiet_step_one _ _ Call.main_loop_quit rfl rfl rfl rfl rfl)

theorem restart_pipeline_calls (launch : LaunchResult) (s : State) :
    ∃ delta, (Gpt.restart_pipeline launch s).2.calls = s.calls ++ delta ∧
      ∀ c ∈ delta, c.is_create_offer = false ∧ c ≠ Call.main_loop_quit := by
  unfold Gpt.restart_pipeline Gpt.build_and_start_pipeline Gpt.stop_and_destroy_pipeline
  cases launch <;> cases hp : s.pipeline <;> cases hw : s.webrtc <;>
    simp [Call.is_create_offer]

theorem live_after_append (live : List Nat) (a b : List Call) :
    live_after live (a ++ b) = live_after (live_after live a) b := by
  simp [live_after, List.foldl_append]

theorem at_most_one_live_from_append (live : List Nat) (a b : List Call) :
    at_most_one_live_from live (a ++ b) =
      (at_most_one_live_from live a && at_most_one_live_from (live_after live a) b) := by
  induction a generalizing live with
  | nil =>
    cases b <;> simp [at_most_one_live_from, live_after]
  | cons c rest ih =>
    have h := ih (live_step live c)
    have happ : rest.append b = rest ++ b := rfl
    simp only [List.cons_append, at_most_one_live_from, live_after, List.foldl_cons,
      Bool.and_assoc] at h ⊢
    rw [happ, h]

theorem live_quiet (live : List Nat) (delta : List Call)
    (hq : ∀ c ∈ delta, c.is_lifecycle = false) :
    live_after live delta = live ∧
      at_most_one_live_from live delta = decide (live.length ≤ 1) := by
  induction delta with
  | nil => simp [live_after, at_most_one_live_from]
  | cons c rest ih =>
    have hc : live_step live c = live := by
      have := hq c (List.mem_cons_self _ _)
      cases c <;> simp_all [live_step, Call.is_lifecycle]
    obtain ⟨i1, i2⟩ := ih (fun d hd => hq d (List.mem_cons_of_mem _ hd))
    constructor
    · simp only [live_after, List.foldl_cons, hc]
      exact i1
    · simp only [at_most_one_live_from, hc, i2, Bool.and_self]

theorem one_live_pipeline_append (s s1 : State) (delta : List Call)
    (hc : s1.calls = s.calls ++ delta) (hi : one_live_pipeline s) :
    at_most_one_live s1.calls = at_most_one_live_from s.pipeline.toList delta ∧
      live_after [] s1.calls = live_after s.pipeline.toList delta := by
  obtain ⟨h1, h2, -⟩ := hi
  unfold at_most_one_live at h1 ⊢
  rw [hc, at_most_one_live_from_append, live_after_append, h1, h2]
  simp

theorem one_live_pipeline_keep (s s1 : State) (delta : List Call)
    (hi : one_live_pipeline s) (hp : s1.pipeline = s.pipeline) (hw : s1.webrtc = s.webrtc)
    (hc : s1.calls = s.calls ++ delta) (hd : ∀ c ∈ delta, c.is_lifecycle = false) :
    one_live_pipeline s1 := by
  obtain ⟨a1, a2⟩ := one_live_pipeline_append s s1 delta hc hi
  obtain ⟨l1, l2⟩ := live_quiet s.pipeline.toList delta hd
  refine ⟨?_, ?_, ?_⟩
  · rw [a1, l2]
    cases s.pipeline <;> simp
  · rw [a2, l1, hp]
  · rw [hp, hw]
    exact hi.2.2

theorem one_live_pipeline_quiet (s s1 : State) (hi : one_live_pipeline s)
    (hq : quiet_step s s1) : one_live_pipeline s1 := by
  obtain ⟨hp, hw, delta, hc, hd⟩ := hq
  exact one_live_pipeline_keep s s1 delta hi hp hw hc (fun c h => (hd c h).2)

theorem stop_and_destroy_pipeline_live (s : State) (hi : one_live_pipeline s) :
    one_live_pipeline (Gpt.stop_and_destroy_pipeline s) ∧
      (Gpt.stop_and_destroy_pipeline s).pipeline = none ∧
      (Gpt.stop_and_destroy_pipeline s).webrtc = none := by
  cases hp : s.pipeline with
  | none =>
    have hs : Gpt.stop_and_destroy_pipeline s = s := by
      simp [Gpt.stop_and_destroy_pipeline, hp]
    rw [hs]
    exact ⟨hi, hp, hi.2.2 hp⟩
  | some p =>
    have hcalls : ∃ mid, (Gpt.stop_and_destroy_pipeline s).calls =
        s.calls ++ ([Call.set_state_null p] ++ mid) ∧
        (∀ c ∈ mid, c.is_lifecycle = false) ∧
        (Gpt.stop_and_destroy_pipeline s).pipeline = none ∧
        (Gpt.stop_and_destroy_pipeline s).webrtc = none := by
      unfold Gpt.stop_and_destroy_pipeline
      cases hw : s.webrtc with
      | none => exact ⟨[Call.unref p], by simp [hp, hw], by simp [Call.is_lifecycle],
          by simp [hp, hw], by simp [hp, hw]⟩
      | some w => exact ⟨[Call.unref w, Call.unref p], by simp [hp, hw],
          by simp [Call.is_lifecycle], by simp [hp, hw], by simp [hp, hw]⟩
    obtain ⟨mid, hc, hq, hpn, hwn⟩ := hcalls
    obtain ⟨a1, a2⟩ := one_live_pipeline_append s _ _ hc hi
    obtain ⟨l1, l2⟩ := live_quiet [] mid hq
    refine ⟨⟨?_, ?_, fun _ => hwn⟩, hpn, hwn⟩
    · rw [a1, hp, at_most_one_live_from_append]
      simp [at_most_one_live_from, live_after, live_step, l2]
    · rw [a2, hp, live_after_append, hpn]
      simp [live_after, live_step] at l1 ⊢
      exact l1

theorem build_and_start_pipeline_live (launch : LaunchResult) (s : State)
    (hi : one_live_pipeline s) (hp : s.pipeline = none) :
    one_live_pipeline (Gpt.build_and_start_pipeline launch s).2 := by
  have hw := hi.2.2 hp
  have hcalls : ∃ delta, (Gpt.build_and_start_pipeline launch s).2.calls = s.calls ++ delta ∧
      at_most_one_live_from [] delta = true ∧
      live_after [] delta = (Gpt.build_and_start_pipeline launch s).2.pipeline.toList ∧
      ((Gpt.build_and_start_pipeline launch s).2.pipeline = none →
        (Gpt.build_and_start_pipeline launch s).2.webrtc = none) := by
    unfold Gpt.build_and_start_pipeline
    cases launch
    · exact ⟨[Call.parse_launch (Gpt.build_pipeline_string s.config)], by simp,
        by simp [at_most_one_live_from, live_step],
        by simp [live_after, live_step], by simp [hw]⟩
    · exact ⟨[Call.parse_launch (Gpt.build_pipeline_string s.config),
          Call.unref s.next_handle], by simp,
        by simp [at_most_one_live_from, live_step],
        by simp [live_after, live_step], by simp⟩
    · exact ⟨[Call.parse_launch (Gpt.build_pipeline_string s.config),
          Call.connect_signals (s.next_handle + 1), Call.bus_add_watch s.next_handle,
          Call.set_state_playing s.next_handle], by simp,
        by simp [at_most_one_live_from, live_step],
        by simp [live_after, live_step], by simp⟩
  obtain ⟨delta, hc, h1, h2, h3⟩ := hcalls
  obtain ⟨a1, a2⟩ := one_live_pipeline_append s _ _ hc hi
  rw [hp] at a1 a2
  exact ⟨by rw [a1]; exact h1, by rw [a2]; exact h2, h3⟩

theorem restart_pipeline_live (launch : LaunchResult) (s : State)
    (hi : one_live_pipeline s) : one_live_pipeline (Gpt.restart_pipeline launch s).2 := by
  obtain ⟨h1, h2, -⟩ := stop_and_destroy_pipeline_live s hi
  exact build_and_start_pipeline_live launch _ h1 h2

theorem force_renegotiate_quiet_live (s : State) (hi : one_live_pipeline s) :
    one_live_pipeline (force_renegotiate s) := by
  have hf : (force_renegotiate s).pipeline = s.pipeline ∧
      (force_renegotiate s).webrtc = s.webrtc ∧
      ∃ delta, (force_renegotiate s).calls = s.calls ++ delta ∧
        ∀ c ∈ delta, c.is_lifecycle = false := by
    cases hw : s.webrtc with
    | none =>
      have he : force_renegotiate s = s := by simp [force_renegotiate, hw]
      rw [he]
      exact ⟨rfl, hw, [], by simp, by simp⟩
    | some w =>
      cases ho : s.offer_in_progress with
      | true =>
        have he : force_renegotiate s = s := by simp [force_renegotiate, hw, ho]
        rw [he]
        exact ⟨rfl, hw, [], by simp, by simp⟩
      | false =>
        have he : force_renegotiate s =
            { s with offer_in_progress := true, calls := s.calls ++ [Call.create_offer w],
                     pending := s.pending ++ [w] } := by
          simp [force_renegotiate, hw, ho]
        rw [he]
        exact ⟨rfl, hw, [Call.create_offer w], rfl, by simp [Call.is_lifecycle]⟩
  obtain ⟨hp, hw, delta, hc, hd⟩ := hf
  exact one_live_pipeline_keep s _ delta hi hp hw hc hd

theorem gpt_step_live (e : Event) (s s1 : State) (hi : one_live_pipeline s)
    (h : Gpt.step e s = some s1) : one_live_pipeline s1 := by
  rcases gpt_step_cases e s s1 h with hq | ⟨launch, -, hs⟩ | ⟨launch, -, hs⟩
  · exact one_live_pipeline_quiet s s1 hi hq
  · have hr := restart_pipeline_live launch s hi
    subst hs
    cases (Gpt.restart_pipeline launch s).1
    · simpa using hr
    · simp only [Bool.not_true, Bool.false_eq_true, if_false]
      exact force_renegotiate_quiet_live _
        (one_live_pipeline_quiet _ _ hr (reset_peer_state_quiet _))
  · subst hs
    exact restart_pipeline_live launch _
      (one_live_pipeline_quiet _ _ hi (reset_peer_state_quiet s))

theorem gpt_run_live (events : List Event) (s s1 : State) (hi : one_live_pipeline s)
    (h : Gpt.run events s = some s1) : one_live_pipeline s1 := by
  induction events generalizing s with
  | nil =>
    simp only [Gpt.run, Option.some.injEq] at h
    subst h
    exact hi
  | cons e rest ih =>
    simp only [Gpt.run] at h
    cases hs : Gpt.step e s with
    | none => simp [hs] at h
    | some s2 =>
      simp only [hs] at h
      exact ih s2 (gpt_step_live e s s2 hi hs) h

theorem booted_live (config : Config) : one_live_pipeline (Gpt.booted config) := by
  refine ⟨?_, ?_, ?_⟩ <;>
    simp [Gpt.booted, Gpt.on_websocket_connected, send_json_message,
      Gpt.build_and_start_pipeline, Gpt.initial, at_most_one_live, at_most_one_live_from,
      live_after, live_step]

/-- C11 (the code at the failing inputs): a message of a known type that lacks
a required field is not discarded by on_message of gpt.cpp. An answer without
sdp crashes the handler; a registered without id erases my_id; an answer
without from unbinds the peer and is applied as the remote description; an
ice-candidate without sdpMLineIndex is forwarded with index 0. -/
theorem C11_missing_field_not_discarded :
    Gpt.on_message LaunchResult.ok
        (Frame.json (some (JsonNode.obj
          [("type", JsonNode.str "answer"), ("from", JsonNode.str "V1")])))
        (Gpt.booted default_config) = none ∧
    (Gpt.run
        [Event.message LaunchResult.ok (Frame.json (some (registered_message (some "S1")))),
         Event.message LaunchResult.ok (Frame.json (some (registered_message none)))]
        (Gpt.booted default_config)).map (fun s => s.my_id) = some none ∧
    (Gpt.run
        [Event.message LaunchResult.ok (Frame.json (some (request_offer_message (some "V1")))),
         Event.offer_created 0 (some "v=0 o"),
         Event.message LaunchResult.ok (Frame.json (some (answer_message "v=0 a" "V1"))),
         Event.message LaunchResult.ok (Frame.json (some (JsonNode.obj
           [("type", JsonNode.str "answer"), ("sdp", JsonNode.str "v=0")])))]
        (Gpt.booted default_config)).map
      (fun s => (s.peer_id, s.calls.drop (s.calls.length - 2))) =
      some (none,
        [Call.set_remote_description (some 3) "v=0 a",
         Call.set_remote_description (some 3) "v=0"]) ∧
    (Gpt.on_message LaunchResult.ok
        (Frame.json (some (JsonNode.obj
          [("type", JsonNode.str "ice-candidate"),
           ("candidate", JsonNode.obj [("candidate", JsonNode.str "candidate:1")])])))
        (Gpt.booted default_config)).map (fun s => s.calls.drop (s.calls.length - 1)) =
      some [Call.add_ice_candidate (some 1) 0 "candidate:1"] := by
  refine ⟨rfl, rfl, rfl, rfl⟩

/-- C12 (counterexample): once the answer of V1 has bound peer_id to V1, an
answer from V2 is not ignored: it rebinds peer_id to V2 and is applied as the
remote description. -/
theorem C12_answer_from_other_peer_applied :
    (Gpt.run
        [Event.message LaunchResult.ok (Frame.json (some (request_offer_message (some "V1")))),
         Event.offer_created 0 (some "v=0 o"),
         Event.message LaunchResult.ok (Frame.json (some (answer_message "v=0 a" "V1"))),
         Event.message LaunchResult.ok (Frame.json (some (answer_message "v=0 b" "V2")))]
        (Gpt.booted default_config)).map
      (fun s => (s.peer_id, s.calls.drop (s.calls.length - 2))) =
      some (some "V2",
        [Call.set_remote_description (some 3) "v=0 a",
         Call.set_remote_description (some 3) "v=0 b"]) := by
  rfl

/-- C12 (amended): with peer_id bound to p, an answer whose from differs from
p (sdp and from being strings) is applied all the same, in gpt.cpp and
index.cpp: peer_id becomes the message's from, offer_in_progress is cleared
and one set-remote-description call carries the message's sdp. -/
theorem C12_answer_rebinds_peer (launch : LaunchResult) (root : Option JsonNode) (s : State)
    (p sdp from_id : String) (hp : s.peer_id = some p) (hne : from_id ≠ p)
    (ht : json_object_get_string_member (json_node_get_object root) "type" = some "answer")
    (hs : json_object_get_string_member (json_node_get_object root) "sdp" = some sdp)
    (hf : json_object_get_string_member (json_node_get_object root) "from" = some from_id) :
    Gpt.on_message launch (Frame.json root) s =
      some { s with
        peer_id := some from_id
        offer_in_progress := false
        calls := s.calls ++ [Call.set_remote_description s.webrtc sdp] } ∧
    Index.on_message (Frame.json root) s =
      some { s with
        peer_id := some from_id
        offer_in_progress := false
        calls := s.calls ++ [Call.set_remote_description s.webrtc sdp] } := by
  have hq : ¬ p = from_id := fun h => hne h.symm
  simp [Gpt.on_message, Index.on_message, ht, on_message_answer, hs, hf, hp, hq]

/-- C12 (witness): bound to V1, an answer from V3. -/
theorem C12_answer_rebinds_peer_witness :
    Gpt.on_message LaunchResult.ok (Frame.json (some (answer_message "v=0 b" "V3")))
        { Gpt.booted default_config with peer_id := some "V1" } =
      some { Gpt.booted default_config with
        peer_id := some "V3"
        offer_in_progress := false
        calls := (Gpt.booted default_config).calls ++
          [Call.set_remote_description (some 1) "v=0 b"] } :=
  (C12_answer_rebinds_peer LaunchResult.ok (some (answer_message "v=0 b" "V3"))
    { Gpt.booted default_config with peer_id := some "V1" } "V1" "v=0 b" "V3" rfl (by decide)
    rfl rfl rfl).1

/-- C14 (the code at the failing input): in gpt.cpp a request-offer whose
rebuild fails returns before reset_peer_state. After an answer from V1 bound
the peer, the failed rebuild leaves peer_id bound to V1 with no pipeline; after
a first request-offer, the failed rebuild of a second one leaves
offer_in_progress TRUE with no pipeline. No create-offer is issued and the
main loop is not quit. -/
theorem C14_failed_rebuild_keeps_peer_state :
    (Gpt.run
        [Event.message LaunchResult.ok (Frame.json (some (request_offer_message (some "V1")))),
         Event.offer_created 0 (some "v=0 o"),
         Event.message LaunchResult.ok (Frame.json (some (answer_message "v=0 a" "V1"))),
         Event.message LaunchResult.error
           (Frame.json (some (request_offer_message (some "V2"))))]
        (Gpt.booted default_config)).map
      (fun s => (s.peer_id, s.offer_in_progress, s.pipeline, s.webrtc,
        s.calls.drop (s.calls.length - 4))) =
      some (some "V1", false, none, none,
        [Call.set_state_null 2, Call.unref 3, Call.unref 2,
         Call.parse_launch (Gpt.build_pipeline_string default_config)]) ∧
    (Gpt.run
        [Event.message LaunchResult.ok (Frame.json (some (request_offer_message (some "V1")))),
         Event.message LaunchResult.error
           (Frame.json (some (request_offer_message (some "V2"))))]
        (Gpt.booted default_config)).map
      (fun s => (s.peer_id, s.offer_in_progress, s.pipeline, s.webrtc)) =
      some (none, true, none, none) := by
  constructor <;> rfl

/-- The peer-left path of gpt.cpp: a matching peer-left calls reset_peer_state
before the rebuild, so after a failed rebuild peer_id is unset and offer_in_progress
FALSE, no create-offer was issued and the main loop was not quit. -/
theorem peer_left_failed_rebuild (launch : LaunchResult) (root : Option JsonNode) (s : State)
    (id : String)
    (ht : json_object_get_string_member (json_node_get_object root) "type" = some "peer-left")
    (hid : json_object_get_string_member (json_node_get_object root) "id" = some id)
    (hp : s.peer_id = some id) :
    ∃ s1 delta, Gpt.on_message launch (Frame.json root) s = some s1 ∧
      s1.peer_id = none ∧ s1.offer_in_progress = false ∧
      s1.calls = s.calls ++ delta ∧
      ∀ c ∈ delta, c.is_create_offer = false ∧ c ≠ Call.main_loop_quit := by
  rw [gpt_dispatch_peer_left launch root s ht, hid, hp]
  obtain ⟨delta, hc, hd⟩ := restart_pipeline_calls launch (reset_peer_state s)
  obtain ⟨-, h2, -, -, -, h6⟩ := restart_pipeline_frame launch (reset_peer_state s)
  refine ⟨(Gpt.restart_pipeline launch (reset_peer_state s)).2, delta, by simp, ?_, ?_, ?_, hd⟩
  · rw [h2, reset_peer_state_eq]
  · rw [h6, reset_peer_state_eq]
  · rw [hc, reset_peer_state_eq]

/-- C15: along every sequence of events handled from the booted state of
gpt.cpp, the call log never shows two running pipelines, the running pipeline
is the global `pipeline`, and stop_and_destroy_pipeline leaves pipeline and
webrtc NULL with no pipeline running, which is the state restart_pipeline
enters build_and_start_pipeline in; main enters it first with no handle. -/
theorem C15_one_live_handle (config : Config) (events : List Event) (s : State)
    (h : Gpt.run events (Gpt.booted config) = some s) :
    at_most_one_live s.calls = true ∧
    live_after [] s.calls = s.pipeline.toList ∧
    (Gpt.stop_and_destroy_pipeline s).pipeline = none ∧
    (Gpt.stop_and_destroy_pipeline s).webrtc = none ∧
    live_after [] (Gpt.stop_and_destroy_pipeline s).calls = [] ∧
    at_most_one_live (Gpt.stop_and_destroy_pipeline s).calls = true ∧
    (Gpt.initial config).pipeline = none ∧ (Gpt.initial config).webrtc = none := by
  have hi := gpt_run_live events _ s (booted_live config) h
  obtain ⟨⟨s1, s2, -⟩, s3, s4⟩ := stop_and_destroy_pipeline_live s hi
  refine ⟨hi.1, hi.2.1, s3, s4, ?_, s1, rfl, rfl⟩
  rw [s2, s3]
  rfl

/-- C15 (witness): request-offer, matching peer-left with a failed rebuild,
request-offer again. -/
theorem C15_one_live_handle_witness :
    ∃ s, Gpt.run
        [Event.message LaunchResult.ok (Frame.json (some (request_offer_message (some "V1")))),
         Event.offer_created 0 (some "v=0 o"),
         Event.message LaunchResult.ok (Frame.json (some (answer_message "v=0 a" "V1"))),
         Event.message LaunchResult.no_webrtcbin
           (Frame.json (some (JsonNode.obj
             [("type", JsonNode.str "peer-left"), ("id", JsonNode.str "V1")]))),
         Event.message LaunchResult.ok (Frame.json (some (request_offer_message none)))]
        (Gpt.booted default_config) = some s ∧
      at_most_one_live s.calls = true ∧ live_after [] s.calls = s.pipeline.toList ∧
      s.pipeline = some 5 := by
  cases hrun : Gpt.run
      [Event.message LaunchResult.ok (Frame.json (some (request_offer_message (some "V1")))),
       Event.offer_created 0 (some "v=0 o"),
       Event.message LaunchResult.ok (Frame.json (some (answer_message "v=0 a" "V1"))),
       Event.message LaunchResult.no_webrtcbin
         (Frame.json (some (JsonNode.obj
           [("type", JsonNode.str "peer-left"), ("id", JsonNode.str "V1")]))),
       Event.message LaunchResult.ok (Frame.json (some (request_offer_message none)))]
      (Gpt.booted default_config) with
  | none =>
    have hsome : (Gpt.run
      [Event.message LaunchResult.ok (Frame.json (some (request_offer_message (some "V1")))),
       Event.offer_created 0 (some "v=0 o"),
       Event.message LaunchResult.ok (Frame.json (some (answer_message "v=0 a" "V1"))),
       Event.message LaunchResult.no_webrtcbin
         (Frame.json (some (JsonNode.obj
           [("type", JsonNode.str "peer-left"), ("id", JsonNode.str "V1")]))),
       Event.message LaunchResult.ok (Frame.json (some (request_offer_message none)))]
      (Gpt.booted default_config)).isSome = true := rfl
    rw [hrun] at hsome
    cases hsome
  | some s =>
    have hpipe : (Gpt.run
      [Event.message LaunchResult.ok (Frame.json (some (request_offer_message (some "V1")))),
       Event.offer_created 0 (some "v=0 o"),
       Event.message LaunchResult.ok (Frame.json (some (answer_message "v=0 a" "V1"))),
       Event.message LaunchResult.no_webrtcbin
         (Frame.json (some (JsonNode.obj
           [("type", JsonNode.str "peer-left"), ("id", JsonNode.str "V1")]))),
       Event.message LaunchResult.ok (Frame.json (some (request_offer_message none)))]
      (Gpt.booted default_config)).map (fun x => x.pipeline) = some (some 5) := rfl
    rw [hrun] at hpipe
    exact ⟨s, rfl, (C15_one_live_handle default_config _ s hrun).1,
      (C15_one_live_handle default_config _ s hrun).2.1, Option.some.inj hpipe⟩

/-- C16: on_offer_created with a reply that holds no offer clears
offer_in_progress and does nothing else to the globals: no call is made (no
set-local-description, no offer message, no new create-offer), peer_id,
pipeline and webrtc are unchanged; the fired promise leaves `pending`. -/
theorem C16_failed_offer_clears_flag (promise : Nat) (s : State) :
    on_offer_created promise none s =
      { s with offer_in_progress := false, pending := s.pending.eraseIdx promise } := by
  rfl

/-- C17 (the code at the failing input): an ice-candidate message whose
candidate object has a candidate string and no sdpMLineIndex is forwarded by
on_message (gpt.cpp and index.cpp) as add-ice-candidate with index 0. -/
theorem C17_candidate_without_index_forwarded :
    Gpt.on_message LaunchResult.ok
        (Frame.json (some (JsonNode.obj
          [("type", JsonNode.str "ice-candidate"),
           ("candidate", JsonNode.obj
             [("candidate", JsonNode.str "candidate:2 1 UDP 1 10.0.0.2 5000 typ host")])])))
        (Gpt.booted default_config) =
      some { Gpt.booted default_config with
        calls := (Gpt.booted default_config).calls ++
          [Call.add_ice_candidate (some 1) 0 "candidate:2 1 UDP 1 10.0.0.2 5000 typ host"] } ∧
    Index.on_message
        (Frame.json (some (JsonNode.obj
          [("type", JsonNode.str "ice-candidate"),
           ("candidate", JsonNode.obj
             [("candidate", JsonNode.str "candidate:2 1 UDP 1 10.0.0.2 5000 typ host")])])))
        (Gpt.booted default_config) =
      some { Gpt.booted default_config with
        calls := (Gpt.booted default_config).calls ++
          [Call.add_ice_candidate (some 1) 0 "candidate:2 1 UDP 1 10.0.0.2 5000 typ host"] } := by
  constructor <;> rfl

/-- C18: handling any event other than an inbound request-offer message
(registered, answer, ice-candidate, peer-left, a message of unknown type, a
frame that is no JSON message, negotiation-needed, a local candidate, an ICE
connection-state change, an offer completion, a bus message, the close of the
websocket) issues no create-offer call: the calls the handler adds hold none.
on_negotiation_needed changes no global and makes no call. -/
theorem C18_offer_only_on_request (e : Event) (s s1 : State)
    (hne : e.message_type ≠ some "request-offer") (h : Gpt.step e s = some s1) :
    (∃ delta, s1.calls = s.calls ++ delta ∧ ∀ c ∈ delta, c.is_create_offer = false) ∧
    on_negotiation_needed s = s := by
  refine ⟨?_, rfl⟩
  rcases gpt_step_cases e s s1 h with ⟨-, -, delta, hc, hd⟩ | ⟨launch, ht, -⟩ | ⟨launch, -, hs⟩
  · exact ⟨delta, hc, fun c hc1 => (hd c hc1).1⟩
  · exact absurd ht hne
  · obtain ⟨delta, hc, hd⟩ := restart_pipeline_calls launch (reset_peer_state s)
    refine ⟨delta, ?_, fun c hc1 => (hd c hc1).1⟩
    rw [hs, hc, reset_peer_state_eq]

/-- C18 (witness): a matching peer-left rebuilds the pipeline and issues no
create-offer. -/
theorem C18_offer_only_on_request_witness :
    (∃ delta, (Gpt.restart_pipeline LaunchResult.ok
          (reset_peer_state { Gpt.booted default_config with peer_id := some "V1" })).2.calls =
        (Gpt.booted default_config).calls ++ delta ∧
        ∀ c ∈ delta, c.is_create_offer = false) ∧
    on_negotiation_needed { Gpt.booted default_config with peer_id := some "V1" } =
      { Gpt.booted default_config with peer_id := some "V1" } :=
  C18_offer_only_on_request
    (Event.message LaunchResult.ok (Frame.json (some (JsonNode.obj
      [("type", JsonNode.str "peer-left"), ("id", JsonNode.str "V1")]))))
    { Gpt.booted default_config with peer_id := some "V1" }
    (Gpt.restart_pipeline LaunchResult.ok
      (reset_peer_state { Gpt.booted default_config with peer_id := some "V1" })).2
    (by decide) rfl

theorem answer_message_fields (sdp from_id : String) :
    json_object_get_string_member (json_node_get_object (some (answer_message sdp from_id)))
      "type" = some "answer" ∧
    json_object_get_string_member (json_node_get_object (some (answer_message sdp from_id)))
      "sdp" = some sdp ∧
    json_object_get_string_member (json_node_get_object (some (answer_message sdp from_id)))
      "from" = some from_id := by
  refine ⟨rfl, rfl, rfl⟩

theorem gpt_answer_applied (launch : LaunchResult) (root : Option JsonNode) (s : State)
    (sdp from_id : String)
    (ht : json_object_get_string_member (json_node_get_object root) "type" = some "answer")
    (hs : json_object_get_string_member (json_node_get_object root) "sdp" = some sdp)
    (hf : json_object_get_string_member (json_node_get_object root) "from" = some from_id) :
    Gpt.on_message launch (Frame.json root) s =
      some { s with
        peer_id := some from_id
        offer_in_progress := false
        calls := s.calls ++ [Call.set_remote_description s.webrtc sdp] } := by
  simp only [Gpt.on_message, ht, on_message_answer, hs, hf]
  by_cases hq : s.peer_id = some from_id <;> simp [hq]

/-- C19: from any state with a live pipeline and webrtcbin and the websocket
connected, gpt.cpp handling request-offer from v (rebuild succeeding), the
completion of the create-offer it issued with a description, and the answer
of v: the pipeline is torn down and rebuilt once, the only message sent is
the offer with members type and sdp and no to, and the run ends with peer_id
bound to v and offer_in_progress FALSE. -/
theorem C19_request_offer_answer_scenario (v offer_sdp answer_sdp : String) (s : State)
    (p w : Nat) (hp : s.pipeline = some p) (hw : s.webrtc = some w)
    (hc : s.ws_conn = true) :
    Gpt.run
        [Event.message LaunchResult.ok (Frame.json (some (request_offer_message (some v)))),
         Event.offer_created s.pending.length (some offer_sdp),
         Event.message LaunchResult.ok (Frame.json (some (answer_message answer_sdp v)))]
        s =
      some { s with
        pipeline := some s.next_handle
        webrtc := some (s.next_handle + 1)
        peer_id := some v
        offer_in_progress := false
        next_handle := s.next_handle + 2
        calls := s.calls ++
          [Call.set_state_null p, Call.unref w, Call.unref p,
           Call.parse_launch (Gpt.build_pipeline_string s.config),
           Call.connect_signals (s.next_handle + 1), Call.bus_add_watch s.next_handle,
           Call.set_state_playing s.next_handle,
           Call.create_offer (s.next_handle + 1),
           Call.set_local_description (some (s.next_handle + 1)) offer_sdp,
           Call.send_text [("type", JsonNode.str "offer"), ("sdp", JsonNode.str offer_sdp)],
           Call.set_remote_description (some (s.next_handle + 1)) answer_sdp] } ∧
    json_object_has_member
      (some [("type", JsonNode.str "offer"), ("sdp", JsonNode.str offer_sdp)]) "to" = false := by
  refine ⟨?_, rfl⟩
  obtain ⟨a1, a2, a3⟩ := answer_message_fields answer_sdp v
  simp only [Gpt.run, Gpt.step]
  rw [gpt_request_offer_ok _ s (request_offer_message_type (some v))]
  simp only [List.length_append, List.length_singleton, Nat.lt_succ_self, if_true]
  rw [gpt_answer_applied LaunchResult.ok _ _ answer_sdp v a1 a2 a3]
  simp [on_offer_created, send_json_message, hc, hp, hw, json_object_set_string_member,
    json_object_set_member, List.lookup, List.eraseIdx_append_of_length_le]

/-- C19 (witness): the scenario from the booted state with viewer V1. -/
theorem C19_request_offer_answer_scenario_witness :
    (Gpt.run
        [Event.message LaunchResult.ok (Frame.json (some (request_offer_message (some "V1")))),
         Event.offer_created 0 (some "v=0 offer"),
         Event.message LaunchResult.ok (Frame.json (some (answer_message "v=0 answer" "V1")))]
        (Gpt.booted default_config)).map
      (fun s => (s.pipeline, s.webrtc, s.peer_id, s.offer_in_progress, s.pending)) =
      some (some 2, some 3, some "V1", false, []) := by
  exact congrArg
    (Option.map (fun s => (s.pipeline, s.webrtc, s.peer_id, s.offer_in_progress, s.pending)))
    (C19_request_offer_answer_scenario "V1" "v=0 offer" "v=0 answer"
      (Gpt.booted default_config) 0 1 rfl rfl rfl).1

theorem parse_arguments_loop_valid (config : Config) (o : ParsedOption)
    (rest : List ParsedOption) (hv : reference_option_valid o = true) :
    parse_arguments_loop config (o :: rest) =
      parse_arguments_loop (reference_apply config o) rest := by
  unfold reference_option_valid at hv
  rw [parse_arguments_loop]
  unfold reference_apply
  by_cases h1 : o.c = 'c'
  · simp only [if_pos h1, Bool.or_eq_true, decide_eq_true_eq] at hv ⊢
    rcases hv with hv | hv <;> simp [hv]
  by_cases h2 : o.c = 'b'
  · simp only [if_neg h1, if_pos h2, decide_eq_true_eq] at hv ⊢
    rw [if_neg (by omega)]
  by_cases h3 : o.c = 'f'
  · simp only [if_neg h1, if_neg h2, if_pos h3, decide_eq_true_eq, Bool.and_eq_true] at hv ⊢
    rw [if_neg (by omega)]
  by_cases h4 : o.c = 'w'
  · simp only [if_neg h1, if_neg h2, if_neg h3, if_pos h4, decide_eq_true_eq] at hv ⊢
    rw [if_neg (by omega)]
  by_cases h5 : o.c = 'H'
  · simp only [if_neg h1, if_neg h2, if_neg h3, if_neg h4, if_pos h5, decide_eq_true_eq] at hv ⊢
    rw [if_neg (by omega)]
  by_cases h6 : o.c = 'd'
  · simp only [if_neg h1, if_neg h2, if_neg h3, if_neg h4, if_neg h5, if_pos h6]
  · simp only [if_neg h1, if_neg h2, if_neg h3, if_neg h4, if_neg h5] at hv
    simp [h6] at hv

theorem parse_arguments_loop_invalid (config : Config) (o : ParsedOption)
    (rest : List ParsedOption) (hv : reference_option_valid o = false) :
    parse_arguments_loop config (o :: rest) = parse_arguments_loop config [o] ∧
      (parse_arguments_loop config [o]).1 = false := by
  unfold reference_option_valid at hv
  rw [parse_arguments_loop, parse_arguments_loop]
  by_cases h1 : o.c = 'c'
  · simp only [if_pos h1, Bool.or_eq_false_iff, decide_eq_false_iff_not] at hv ⊢
    simp [hv.1, hv.2]
  by_cases h2 : o.c = 'b'
  · simp only [if_neg h1, if_pos h2, decide_eq_false_iff_not] at hv ⊢
    rw [if_pos (by omega), if_pos (by omega)]
    exact ⟨rfl, rfl⟩
  by_cases h3 : o.c = 'f'
  · simp only [if_neg h1, if_neg h2, if_pos h3, Bool.and_eq_false_iff,
      decide_eq_false_iff_not] at hv ⊢
    rw [if_pos (by omega), if_pos (by omega)]
    exact ⟨rfl, rfl⟩
  by_cases h4 : o.c = 'w'
  · simp only [if_neg h1, if_neg h2, if_neg h3, if_pos h4, decide_eq_false_iff_not] at hv ⊢
    rw [if_pos (by omega), if_pos (by omega)]
    exact ⟨rfl, rfl⟩
  by_cases h5 : o.c = 'H'
  · simp only [if_neg h1, if_neg h2, if_neg h3, if_neg h4, if_pos h5, decide_eq_false_iff_not] at hv ⊢
    rw [if_pos (by omega), if_pos (by omega)]
    exact ⟨rfl, rfl⟩
  by_cases h6 : o.c = 'd'
  · simp only [if_neg h1, if_neg h2, if_neg h3, if_neg h4, if_neg h5] at hv
    simp [h6] at hv
  · simp only [if_neg h1, if_neg h2, if_neg h3, if_neg h4, if_neg h5, if_neg h6]
    exact ⟨trivial, trivial⟩

theorem parse_arguments_loop_skip_valid (config : Config) (pre rest : List ParsedOption)
    (hv : ∀ o ∈ pre, reference_option_valid o = true) :
    parse_arguments_loop config (pre ++ rest) =
      parse_arguments_loop (pre.foldl reference_apply config) rest := by
  induction pre generalizing config with
  | nil => rfl
  | cons o tl ih =>
    rw [List.cons_append, parse_arguments_loop_valid config o _ (hv o (List.mem_cons_self _ _))]
    exact ih _ (fun x hx => hv x (List.mem_cons_of_mem _ hx))

theorem parse_arguments_loop_spec (config : Config) (opts : List ParsedOption) :
    (if (parse_arguments_loop config opts).1 then some (parse_arguments_loop config opts).2
      else none) =
      (if opts.all reference_option_valid then some (opts.foldl reference_apply config)
        else none) := by
  induction opts generalizing config with
  | nil => simp [parse_arguments_loop]
  | cons o rest ih =>
    cases hv : reference_option_valid o with
    | true =>
      rw [parse_arguments_loop_valid config o rest hv, ih]
      simp [hv]
    | false =>
      obtain ⟨h1, h2⟩ := parse_arguments_loop_invalid config o rest hv
      rw [h1, h2]
      simp [hv]

/-- C20: parse_arguments agrees with the reference validator. It returns TRUE
with the configuration the validator gives exactly when every option
getopt_long delivered is valid (codec h264 or h265, bitrate above 0, fps from
1 to 120, width and height above 0 as atoi reads them, any device; --help and
unknown options are invalid); at the first invalid option it returns FALSE
without looking at the rest; and when it returns FALSE, main of gpt.cpp
returns -1 having made no call: no pipeline built, no connection started. -/
theorem C20_parse_arguments_refines_validator (opts : List ParsedOption)
    (launch : LaunchResult) :
    (if (parse_arguments opts).1 then some (parse_arguments opts).2 else none) =
      reference_validator opts ∧
    ((parse_arguments opts).1 = true ↔ ∀ o ∈ opts, reference_option_valid o = true) ∧
    (∀ pre bad rest, opts = pre ++ bad :: rest →
      (∀ o ∈ pre, reference_option_valid o = true) → reference_option_valid bad = false →
      parse_arguments opts = parse_arguments (pre ++ [bad]) ∧ (parse_arguments opts).1 = false) ∧
    ((parse_arguments opts).1 = false →
      (Gpt.main_start opts launch).1 = some (-1) ∧
      (Gpt.main_start opts launch).2.calls = [] ∧
      (Gpt.main_start opts launch).2.pipeline = none ∧
      (Gpt.main_start opts launch).2.ws_conn = false) := by
  have hspec := parse_arguments_loop_spec default_config opts
  refine ⟨hspec, ?_, ?_, ?_⟩
  · unfold parse_arguments
    cases hr : (parse_arguments_loop default_config opts).1 <;>
      cases ha : opts.all reference_option_valid <;>
      simp [hr, ha] at hspec
    · simpa using ha
    · simpa using ha
  · intro pre bad rest hopts hpre hbad
    subst hopts
    unfold parse_arguments
    rw [parse_arguments_loop_skip_valid _ pre _ hpre, parse_arguments_loop_skip_valid _ pre _ hpre]
    obtain ⟨h1, h2⟩ := parse_arguments_loop_invalid
      (pre.foldl reference_apply default_config) bad rest hbad
    exact ⟨h1, by rw [h1]; exact h2⟩
  · intro hf
    simp [Gpt.main_start, hf, Gpt.initial]

/-- Examples of parse_arguments: a valid command line, one with an fps out of range
followed by more options, and --help. -/
theorem parse_arguments_examples :
    (parse_arguments [⟨'c', "h265"⟩, ⟨'b', "3000"⟩, ⟨'f', "25"⟩]).1 = true ∧
    (parse_arguments [⟨'c', "h265"⟩, ⟨'b', "3000"⟩, ⟨'f', "25"⟩]).2.bitrate = 3000 ∧
    (parse_arguments [⟨'b', "3000"⟩, ⟨'f', "121"⟩, ⟨'c', "h265"⟩]).1 = false ∧
    (parse_arguments [⟨'b', "3000"⟩, ⟨'f', "121"⟩, ⟨'c', "h265"⟩]).2.codec = "h264" ∧
    (parse_arguments [⟨'?', ""⟩]).1 = false ∧
    (Gpt.main_start [⟨'w', "0"⟩] LaunchResult.ok).1 = some (-1) := by
  refine ⟨?_, ?_, ?_, ?_, ?_, ?_⟩ <;> decide

/-- The 32-bit product of `build_pipeline_string` is the exact product for a
bitrate from 1 to 2147483 and differs from it for every larger bitrate an int
can hold. -/
theorem to_gint_bitrate_product (bitrate : Int) (h0 : 0 < bitrate)
    (h1 : bitrate ≤ 2147483647) :
    (bitrate ≤ 2147483 → to_gint (bitrate * 1000) = bitrate * 1000) ∧
    (2147483 < bitrate → to_gint (bitrate * 1000) ≠ bitrate * 1000) := by
  unfold to_gint
  constructor
  · intro h
    omega
  · intro h
    omega

/-- C21 (the code at the failing input): parse_arguments accepts
--bitrate=2147484, and the 32-bit signed product config.bitrate * 1000 that
build_pipeline_string of gpt.cpp then writes as target-bitrate is
-2147483296, not 2147484000: the conversion overflows and is negative. -/
theorem C21_bitrate_product_overflows :
    (parse_arguments [⟨'b', "2147484"⟩]).1 = true ∧
    (parse_arguments [⟨'b', "2147484"⟩]).2.bitrate = 2147484 ∧
    to_gint ((parse_arguments [⟨'b', "2147484"⟩]).2.bitrate * 1000) = -2147483296 ∧
    Gpt.build_pipeline_string (parse_arguments [⟨'b', "2147484"⟩]).2 =
      snprintf_buffer 4096 ("webrtcbin name=webrtcbin bundle-policy=max-bundle latency=100 " ++
      "stun-server=stun://stun.l.google.com:19302 " ++
      "v4l2src device=" ++ "/dev/video0" ++ " ! " ++
      "video/x-raw,width=" ++ "1280" ++ ",height=" ++ "720" ++
        ",framerate=" ++ "30" ++ "/1 ! " ++
      "videoconvert ! " ++
      "queue max-size-buffers=3 leaky=downstream ! " ++
      "omxh264enc" ++ " target-bitrate=" ++ "-2147483296" ++
        " control-rate=2 ! " ++
      "h264parse" ++ " ! " ++
      "rtph264pay" ++ " config-interval=1 pt=" ++ "96" ++ " ! " ++
      "application/x-rtp,media=video,encoding-name=" ++ "H264" ++
        ",payload=" ++ "96" ++ " ! " ++
      "webrtcbin. " ++
      "audiotestsrc is-live=true wave=silence ! " ++
      "audioconvert ! audioresample ! queue ! " ++
      "opusenc ! rtpopuspay pt=97 ! " ++
      "application/x-rtp,media=audio,encoding-name=OPUS,payload=97 ! " ++
      "webrtcbin.") := by
  refine ⟨by decide, by decide, by decide, ?_⟩
  rfl

end GstWebrtc
